import Mathlib

/-!
# Verification model of the Typify typing-animation library

Shallow embedding of the two source files of the repository:

* `src/typify-v-2.0.0.js` (namespace `TypifyV2`)
* `src/typify.js`         (namespace `TypifyV1`)

The library is a process-wide singleton that reveals a text one character
per timer tick into a target element of the host's visual tree, optionally
rendering a cursor span, looping, and (in v2) toggling a CSS animation
class.  The embedding models:

* the singleton's mutable fields (`config`, `isInitialized`,
  `typingInterval`, `currentIndex`, `text`, `element`, `cursorElement`,
  and in v2 `animationClass`) exactly as in the source;
* the host environment: a table of elements (children / class list /
  style properties), a selector-resolution function standing for
  `document.querySelector`, a table of span text contents, the queue of
  pending `setTimeout`/`setInterval` timers with their fire times, and a
  console error log;
* JavaScript object spread (`{ ...a, ...b }`) as field-wise option
  override, and JavaScript truthiness guards (`if (newConfig.text)`,
  `if (newConfig.speed)`, `typeof newConfig.cursor !== 'undefined'`)
  literally: a string is truthy iff non-empty, a number iff non-zero.

Throwing host calls (member access on a `null` element, DOM
`insertBefore`/`removeChild` with a reference node that is not a child)
are modelled with `Except`: an `.error` value marks the point where the
host would raise.  The class-list collaborator is modelled as an ordered
set of tags with `add`/`remove` as insertion/filtering (the spec's
"add/remove-class-tag" capability); `void element.offsetWidth` (a reflow
with no observable tree effect) is omitted.  Freshly created text nodes
are modelled structurally (plain append), since the source never
re-attaches an existing text node.

Timer semantics: `setTimeout` enqueues a one-shot `startCb` event (the
`() => this.startTyping()` callback, the only shape of timeout in the
source), `setInterval` a repeating `tick` event; `clearInterval` removes
the timer with the stored id from the queue and ids are never reused.
Firing a timer sets the current time to its fire time; a repeating timer
is rescheduled one period later before its body runs, so that a
`clearInterval` inside the body cancels it for good, as in a real event
loop.
-/

set_option autoImplicit false


namespace Typify

/-- Points where the host environment would throw an exception. -/
inductive Err
  | nullElem
  | nullCursor
  | notFound
deriving DecidableEq

/-- A child node of the target element: a text node holding one revealed
character, or a `<span>` (cursor) node identified by its creation id. -/
inductive Node
  | text (c : Char)
  | span (id : Nat)
deriving DecidableEq

/-- The two callback shapes the source schedules: the one-shot
`setTimeout(() => this.startTyping(), …)` and the repeating
`setInterval` reveal tick. -/
inductive TKind
  | startCb
  | tick
deriving DecidableEq

/-- A pending timer of the host's event loop. -/
structure Timer where
  id : Nat
  kind : TKind
  fire : Nat
  period : Nat
deriving DecidableEq

/-- Pointwise update of a table modelled as a function. -/
def setFn {α : Type} (f : Nat → α) (i : Nat) (v : α) : Nat → α :=
  fun j => if j = i then v else f j

/-- `clearInterval(id)`: remove the timer with the given id (a no-op on
`null`, as in JavaScript). -/
def removeTimers (l : List Timer) : Option Nat → List Timer
  | none => l
  | some j => l.filter (fun t => t.id ≠ j)

/-- Look up a pending timer by id. -/
def findTimer (l : List Timer) (i : Nat) : Option Timer :=
  l.find? (fun t => t.id = i)

/-- DOM `parent.insertBefore(n, ref)`: insert `n` immediately before the
first occurrence of `ref`; `none` when `ref` is not a child (the DOM
raises `NotFoundError` there). -/
def insertBeforeNode (ref n : Node) : List Node → Option (List Node)
  | [] => none
  | x :: xs =>
    if x = ref then some (n :: x :: xs)
    else (insertBeforeNode ref n xs).map (fun l => x :: l)

/-- DOM `parent.removeChild(c)`: remove the first occurrence of `c`;
`none` when `c` is not a child (the DOM raises `NotFoundError` there). -/
def removeFirstNode (c : Node) : List Node → Option (List Node)
  | [] => none
  | x :: xs =>
    if x = c then some xs
    else (removeFirstNode c xs).map (fun l => x :: l)

/-- `classList.add`: append the tag unless already present. -/
def addClass (l : List String) (s : String) : List String :=
  if s ∈ l then l else l ++ [s]

/-- `classList.remove`: drop the tag (the spec's remove-class-tag
capability; removal of a tag that is absent is a no-op). -/
def removeClass (l : List String) (s : String) : List String :=
  l.filter (fun x => x ≠ s)

end Typify

namespace TypifyV2

open Typify

/-- The configuration object of `src/typify-v-2.0.0.js`.  `text` is a
sequence of UTF-16 code units, modelled as a character list. -/
structure Config where
  selector : String
  text : List Char
  speed : Nat
  loop : Bool
  cursor : Bool
  cursorStyle : String
  delay : Nat
  animation : String
  color : String
  animationDuration : Nat
deriving DecidableEq

/-- The `defaultOptions` object of `init` (v2, lines 26–37). -/
def defaultOptions : Config :=
  { selector := "#typing-demo"
    text := "Hello, TurboChat!".data
    speed := 100
    loop := false
    cursor := true
    cursorStyle := "|"
    delay := 500
    animation := "none"
    color := "#e0e0e0"
    animationDuration := 1000 }

/-- A user-supplied (partial) configuration object: absent keys are
`none`.  Used both for the argument of `init` and of `updateConfig`. -/
structure PartialConfig where
  selector : Option String := none
  text : Option (List Char) := none
  speed : Option Nat := none
  loop : Option Bool := none
  cursor : Option Bool := none
  cursorStyle : Option String := none
  delay : Option Nat := none
  animation : Option String := none
  color : Option String := none
  animationDuration : Option Nat := none

/-- Object spread `{ ...c, ...p }`: fields present in `p` win. -/
def mergeCfg (c : Config) (p : PartialConfig) : Config :=
  { selector := p.selector.getD c.selector
    text := p.text.getD c.text
    speed := p.speed.getD c.speed
    loop := p.loop.getD c.loop
    cursor := p.cursor.getD c.cursor
    cursorStyle := p.cursorStyle.getD c.cursorStyle
    delay := p.delay.getD c.delay
    animation := p.animation.getD c.animation
    color := p.color.getD c.color
    animationDuration := p.animationDuration.getD c.animationDuration }

/-- An element of the host's visual tree: its child nodes, class list and
the two style properties the source writes. -/
structure Elem where
  children : List Node
  classes : List String
  color : String
  animationDuration : String
deriving DecidableEq

/-- The whole mutable state: the singleton `Typify` object's fields
(first block, in source order) plus the host environment. -/
structure World where
  config : Config
  isInitialized : Bool
  typingInterval : Option Nat
  currentIndex : Nat
  text : List Char
  element : Option Nat
  cursorElement : Option Nat
  animationClass : String
  elems : Nat → Elem
  spanText : Nat → String
  resolve : String → Option Nat
  timers : List Timer
  nextTimerId : Nat
  nextSpanId : Nat
  now : Nat
  errorLog : List String

/-- The pristine world: the singleton as declared (v2, lines 10–18) with
an empty `config` object (whose fields are never read before the first
merge: every read is gated by `isInitialized` or happens after `init`
overwrote it), an empty visual tree and no pending timers. -/
def mkClean (r : String → Option Nat) : World :=
  { config :=
      { selector := ""
        text := []
        speed := 0
        loop := false
        cursor := false
        cursorStyle := ""
        delay := 0
        animation := ""
        color := ""
        animationDuration := 0 }
    isInitialized := false
    typingInterval := none
    currentIndex := 0
    text := []
    element := none
    cursorElement := none
    animationClass := ""
    elems := fun _ => { children := [], classes := [], color := "", animationDuration := "" }
    spanText := fun _ => ""
    resolve := r
    timers := []
    nextTimerId := 0
    nextSpanId := 0
    now := 0
    errorLog := [] }

/-- Apply an update to one element of the visual tree. -/
def modifyElem (w : World) (e : Nat) (g : Elem → Elem) : World :=
  { w with elems := setFn w.elems e (g (w.elems e)) }

/-- `clearInterval(this.typingInterval)` (the stored id is kept, as the
JavaScript variable is not nulled). -/
def clearInterval (w : World) (oi : Option Nat) : World :=
  { w with timers := removeTimers w.timers oi }

/-- `setTimeout(() => this.startTyping(), this.config.delay)`. -/
def scheduleStart (w : World) : World :=
  { w with
      timers := w.timers ++ [{ id := w.nextTimerId, kind := TKind.startCb,
                               fire := w.now + w.config.delay, period := 0 }]
      nextTimerId := w.nextTimerId + 1 }

/-- `startTyping` (v2, lines 82–105): arm the repeating reveal interval
at period `config.speed` and store its id.  Note: it does **not** cancel
a previously armed interval. -/
def startTyping (w : World) : World :=
  { w with
      timers := w.timers ++ [{ id := w.nextTimerId, kind := TKind.tick,
                               fire := w.now + w.config.speed, period := w.config.speed }]
      nextTimerId := w.nextTimerId + 1
      typingInterval := some w.nextTimerId }

/-- The mutations of `resetTyping` up to (not including) the cursor
re-append: zero the index, clear the children and — when an enter
animation is configured — remove and re-add the animation tag (the
reflow between the two class operations has no tree effect). -/
def resetPlain (w : World) (e : Nat) : World :=
  if w.config.animation ≠ "none" then
    modifyElem
      (modifyElem (modifyElem { w with currentIndex := 0 } e (fun el => { el with children := [] }))
        e (fun el => { el with classes := removeClass el.classes w.animationClass }))
      e (fun el => { el with classes := addClass el.classes w.animationClass })
  else
    modifyElem { w with currentIndex := 0 } e (fun el => { el with children := [] })

/-- `resetTyping` (v2, lines 110–125).  The guards read only fields the
preceding mutations do not write, so they are evaluated on the input
state. -/
def resetTyping (w : World) : Except Err World :=
  match w.element with
  | none => Except.error Err.nullElem
  | some e =>
    if w.config.cursor then
      match w.cursorElement with
      | none => Except.error Err.nullCursor
      | some c =>
        Except.ok (modifyElem (resetPlain w e) e
          (fun el => { el with children := el.children ++ [Node.span c] }))
    else Except.ok (resetPlain w e)

/-- The first mutations of the successful path of `init`: store the
merged config and the resolved element, apply the text color, set the
text to type, zero the index, and clear the element's content (v2,
lines 38–53). -/
def initBase (w : World) (p : PartialConfig) (e : Nat) : World :=
  { modifyElem
      (modifyElem { w with config := mergeCfg defaultOptions p, element := some e }
        e (fun el => { el with color := (mergeCfg defaultOptions p).color }))
      e (fun el => { el with children := [] })
    with text := (mergeCfg defaultOptions p).text, currentIndex := 0 }

/-- `init`'s animation-class step (v2, lines 56–61), reading the merged
config already stored by `initBase`. -/
def initAnim (w : World) (e : Nat) : World :=
  if w.config.animation ≠ "none" then
    { modifyElem
        (modifyElem w e (fun el =>
          { el with classes := addClass el.classes ("typify-animation-" ++ w.config.animation) }))
        e (fun el =>
          { el with animationDuration := toString w.config.animationDuration ++ "ms" })
      with animationClass := "typify-animation-" ++ w.config.animation }
  else w

/-- Create a fresh cursor `<span>` showing `config.cursorStyle` and
append it to the element (shared by `init` lines 64–68 and
`updateConfig` lines 156–160). -/
def attachCursor (w : World) (e : Nat) : World :=
  modifyElem
    { w with
        nextSpanId := w.nextSpanId + 1
        spanText := setFn w.spanText w.nextSpanId w.config.cursorStyle
        cursorElement := some w.nextSpanId }
    e (fun el => { el with children := el.children ++ [Node.span w.nextSpanId] })

/-- `init`'s cursor step (v2, lines 63–69). -/
def initCursor (w : World) (e : Nat) : World :=
  if w.config.cursor then attachCursor w e else w

/-- `init` (v2, lines 24–77).  Total: the only fallible step, selector
resolution, is handled by an early return with a console error (the
merge into `this.config` and the null `this.element` assignment have
already happened on that path, as in the source). -/
def init (w : World) (p : PartialConfig) : World :=
  match w.resolve (mergeCfg defaultOptions p).selector with
  | none =>
    { w with
        config := mergeCfg defaultOptions p
        element := none
        errorLog := w.errorLog ++
          ["Typify Error: No element found for selector " ++
            (mergeCfg defaultOptions p).selector] }
  | some e =>
    { scheduleStart (initCursor (initAnim (initBase w p e) e) e) with isInitialized := true }

/-- The body of the `setInterval` callback of `startTyping` (v2, lines
83–104): reveal the next character, or cancel the interval and (when
looping) reset and re-arm the start delay. -/
def tickBody (w : World) : Except Err World :=
  if w.currentIndex < w.text.length then
    match w.element with
    | none => Except.error Err.nullElem
    | some e =>
      match w.cursorElement with
      | some cid =>
        match insertBeforeNode (Node.span cid) (Node.text (w.text.getD w.currentIndex ' '))
            ((w.elems e).children) with
        | none => Except.error Err.notFound
        | some l =>
          Except.ok { modifyElem w e (fun el => { el with children := l }) with
                        currentIndex := w.currentIndex + 1 }
      | none =>
        Except.ok
          { modifyElem w e (fun el =>
              { el with children := el.children ++ [Node.text (w.text.getD w.currentIndex ' ')] })
            with currentIndex := w.currentIndex + 1 }
  else
    if w.config.loop then
      match resetTyping (clearInterval w w.typingInterval) with
      | .error er => .error er
      | .ok w2 => Except.ok (scheduleStart w2)
    else Except.ok (clearInterval w w.typingInterval)

/-- Fire the pending timer with the given id (a no-op when no such timer
is pending).  A `startCb` is removed and runs `startTyping`; a `tick` is
rescheduled one period later and runs the interval body. -/
def fireTimer (w : World) (i : Nat) : Except Err World :=
  match findTimer w.timers i with
  | none => Except.ok w
  | some t =>
    match t.kind with
    | .startCb =>
      Except.ok (startTyping
        { w with now := t.fire, timers := w.timers.filter (fun u => u.id ≠ i) })
    | .tick =>
      tickBody
        { w with
            now := t.fire
            timers := w.timers.map
              (fun u => if u.id = i then { u with fire := u.fire + u.period } else u) }

/-- `updateConfig` text branch (v2, lines 137–145), evaluated after the
config merge; guard is JavaScript truthiness of `newConfig.text` plus
`newConfig.text !== this.text`. -/
def textStep (w : World) (p : PartialConfig) : Except Err World :=
  match p.text with
  | some t =>
    if t ≠ [] ∧ t ≠ w.text then
      match resetTyping { w with text := t } with
      | .error er => Except.error er
      | .ok w2 => Except.ok (scheduleStart (clearInterval w2 w2.typingInterval))
    else Except.ok w
  | none => Except.ok w

/-- `updateConfig` speed branch (v2, lines 147–151): guard is truthiness
of `newConfig.speed` (zero is skipped). -/
def speedStep (w : World) (p : PartialConfig) : World :=
  match p.speed with
  | some s => if s ≠ 0 then startTyping (clearInterval w w.typingInterval) else w
  | none => w

/-- `updateConfig` cursor branch (v2, lines 153–166). -/
def cursorStep (w : World) (p : PartialConfig) : Except Err World :=
  match p.cursor with
  | none => Except.ok w
  | some b =>
    if b then
      match w.cursorElement with
      | some _ => Except.ok w
      | none =>
        match w.element with
        | none => Except.error Err.nullElem
        | some e => Except.ok (attachCursor w e)
    else
      match w.cursorElement with
      | none => Except.ok w
      | some c =>
        match w.element with
        | none => Except.error Err.nullElem
        | some e =>
          match removeFirstNode (Node.span c) ((w.elems e).children) with
          | none => Except.error Err.notFound
          | some l =>
            Except.ok { modifyElem w e (fun el => { el with children := l }) with
                          cursorElement := none }

/-- `updateConfig` cursor-style branch (v2, lines 168–171); the new text
content is read from the merged `this.config.cursorStyle`. -/
def cursorStyleStep (w : World) (p : PartialConfig) : World :=
  match p.cursorStyle with
  | some cs =>
    if cs ≠ "" then
      match w.cursorElement with
      | some c => { w with spanText := setFn w.spanText c w.config.cursorStyle }
      | none => w
    else w
  | none => w

/-- Body of the animation branch: drop the previous tag if any (v2,
lines 176–178), then either install the new tag and duration or clear
both. -/
def stripAnimationTag (w : World) (e : Nat) : World :=
  if w.animationClass ≠ "" then
    modifyElem w e (fun el => { el with classes := removeClass el.classes w.animationClass })
  else w

def applyAnimation (w : World) (e : Nat) (a : String) : World :=
  if a ≠ "none" then
    { modifyElem
        (modifyElem (stripAnimationTag w e) e
          (fun el => { el with classes := addClass el.classes ("typify-animation-" ++ a) }))
        e (fun el => { el with animationDuration := toString w.config.animationDuration ++ "ms" })
      with animationClass := "typify-animation-" ++ a }
  else
    { modifyElem (stripAnimationTag w e) e (fun el => { el with animationDuration := "" })
      with animationClass := "" }

/-- `updateConfig` animation branch (v2, lines 173–189).  The guard
compares `newConfig.animation` with `this.config.animation` **after**
the merge at line 135, which is the translated condition here; the body
is translated in full. -/
def animationStep (w : World) (p : PartialConfig) : Except Err World :=
  match p.animation with
  | some a =>
    if a ≠ "" ∧ a ≠ w.config.animation then
      match w.element with
      | none => Except.error Err.nullElem
      | some e => Except.ok (applyAnimation w e a)
    else Except.ok w
  | none => Except.ok w

/-- `updateConfig` color branch (v2, lines 191–194). -/
def colorStep (w : World) (p : PartialConfig) : Except Err World :=
  match p.color with
  | some c =>
    if c ≠ "" then
      match w.element with
      | none => Except.error Err.nullElem
      | some e => Except.ok (modifyElem w e (fun el => { el with color := w.config.color }))
    else Except.ok w
  | none => Except.ok w

/-- `updateConfig` animation-duration branch (v2, lines 196–199). -/
def durationStep (w : World) (p : PartialConfig) : Except Err World :=
  match p.animationDuration with
  | some d =>
    if d ≠ 0 then
      match w.element with
      | none => Except.error Err.nullElem
      | some e =>
        Except.ok (modifyElem w e
          (fun el => { el with animationDuration := toString w.config.animationDuration ++ "ms" }))
    else Except.ok w
  | none => Except.ok w

/-- `updateConfig` (v2, lines 131–200): gate on `isInitialized`, merge,
then the branches in source order. -/
def updateConfig (w : World) (p : PartialConfig) : Except Err World :=
  if w.isInitialized then
    match textStep { w with config := mergeCfg w.config p } p with
    | .error er => Except.error er
    | .ok w1 =>
      match cursorStep (speedStep w1 p) p with
      | .error er => Except.error er
      | .ok w2 =>
        match animationStep (cursorStyleStep w2 p) p with
        | .error er => Except.error er
        | .ok w3 =>
          match colorStep w3 p with
          | .error er => Except.error er
          | .ok w4 => durationStep w4 p
  else Except.ok w

/-- The mutations of the active path of `destroy` (v2, lines 208–213):
cancel the interval, clear the element, drop the animation tag, reset
`animationClass` and the initialized flag. -/
def destroyBody (w : World) (e : Nat) : World :=
  { modifyElem
      (modifyElem (clearInterval w w.typingInterval) e (fun el => { el with children := [] }))
      e (fun el => { el with classes := removeClass el.classes w.animationClass })
    with animationClass := "", isInitialized := false }

/-- `destroy` (v2, lines 205–214). -/
def destroy (w : World) : Except Err World :=
  if w.isInitialized then
    match w.element with
    | none => Except.error Err.nullElem
    | some e => Except.ok (destroyBody w e)
  else Except.ok w

/-- An external event: an API call by host code, or the firing of a
pending timer by the event loop. -/
inductive Action
  | init (p : PartialConfig)
  | update (p : PartialConfig)
  | destroy
  | fire (i : Nat)

/-- One external event. -/
def exec (w : World) : Action → Except Err World
  | .init p => .ok (init w p)
  | .update p => updateConfig w p
  | .destroy => destroy w
  | .fire i => fireTimer w i

/-- A sequence of external events. -/
def execs (w : World) : List Action → Except Err World
  | [] => .ok w
  | a :: rest =>
    match exec w a with
    | .error er => .error er
    | .ok w2 => execs w2 rest

/-- Number of armed repeating reveal tickers. -/
def ticksCount (w : World) : Nat :=
  (w.timers.filter (fun t => t.kind = TKind.tick)).length

/-- Number of pending one-shot start-delay callbacks. -/
def startCount (w : World) : Nat :=
  (w.timers.filter (fun t => t.kind = TKind.startCb)).length

/-- The earliest-deadline pending timer (ties resolved in queue order,
as in the event loop). -/
def minFire : List Timer → Option Timer
  | [] => none
  | t :: ts =>
    match minFire ts with
    | none => some t
    | some u => if u.fire < t.fire then some u else some t

/-- Run the event loop with no intervening API calls up to (and
including) simulated time `T`: repeatedly fire the earliest pending
timer whose deadline is at most `T`. -/
def runUpTo (T : Nat) : Nat → World → Except Err World
  | 0, w => .ok w
  | fuel + 1, w =>
    match minFire w.timers with
    | none => .ok w
    | some t =>
      if t.fire ≤ T then
        match fireTimer w t.id with
        | .error er => .error er
        | .ok w2 => runUpTo T fuel w2
      else .ok w

end TypifyV2

namespace TypifyV2

open Typify

/-- A host document in which every selector resolves (to element 0). -/
def resolveAll : String → Option Nat := fun _ => some 0

/-- A host document in which only the selector `#a` resolves. -/
def resolveOnlyA : String → Option Nat := fun s => if s = "#a" then some 0 else none

/-- Helper: extract the final world of a run (used only to phrase
concrete runs compactly). -/
def runWorld (r : String → Option Nat) (acts : List Action) : World :=
  (execs (mkClean r) acts).toOption.getD (mkClean r)

end TypifyV2

namespace TypifyV2

open Typify

/-- Concrete state for the C9 witness: a fresh `init` with default
options, whose start-delay timeout (id 0, fire time 500) is pending. -/
def c9StateBefore : World := runWorld resolveAll [Action.init {}]

/-- The state after `destroy` on `c9StateBefore`. -/
def c9StateAfter : World := (destroy c9StateBefore).toOption.getD c9StateBefore

end TypifyV2

namespace TypifyV2

open Typify

/-- No repeating reveal ticker among these timers. -/
def noTickTimers (l : List Timer) : Prop := ∀ u ∈ l, u.kind ≠ TKind.tick

/-- The single-ticker invariant: at most one armed reveal ticker, and
every armed ticker is the one whose id `typingInterval` stores (so a
`clearInterval(this.typingInterval)` cancels every armed ticker). -/
def TickInv (w : World) : Prop :=
  ticksCount w ≤ 1 ∧ ∀ u ∈ w.timers, u.kind = TKind.tick → w.typingInterval = some u.id

end TypifyV2

namespace TypifyV2

open Typify

/-- States reachable by any sequence of `init` / `updateConfig` /
`destroy` calls interleaved with timer firings, restricted by the one
proviso of the amended C2: a one-shot start-delay callback only fires at
an instant when no reveal ticker is armed.  (Firings of armed tickers
and of unknown ids are unrestricted.) -/
inductive ReachSafe (r : String → Option Nat) : World → Prop
  | base : ReachSafe r (mkClean r)
  | step_init (w : World) (p : PartialConfig) :
      ReachSafe r w → ReachSafe r (init w p)
  | step_update (w w2 : World) (p : PartialConfig) :
      ReachSafe r w → updateConfig w p = Except.ok w2 → ReachSafe r w2
  | step_destroy (w w2 : World) :
      ReachSafe r w → destroy w = Except.ok w2 → ReachSafe r w2
  | step_fire_tick (w w2 : World) (i : Nat) (t : Timer) :
      ReachSafe r w → findTimer w.timers i = some t → t.kind = TKind.tick →
      fireTimer w i = Except.ok w2 → ReachSafe r w2
  | step_fire_start (w w2 : World) (i : Nat) (t : Timer) :
      ReachSafe r w → findTimer w.timers i = some t → t.kind = TKind.startCb →
      ticksCount w = 0 → fireTimer w i = Except.ok w2 → ReachSafe r w2
  | step_fire_missing (w : World) (i : Nat) :
      ReachSafe r w → findTimer w.timers i = none → ReachSafe r w

end TypifyV2

namespace TypifyV2

open Typify

/-- States reachable by call/firing sequences in which every `init`
call's selector resolves (no failed initialization). -/
inductive ReachResolvedInit : World → Prop
  | base (r : String → Option Nat) : ReachResolvedInit (mkClean r)
  | step_init (w : World) (p : PartialConfig) (e : Nat) :
      ReachResolvedInit w → w.resolve (mergeCfg defaultOptions p).selector = some e →
      ReachResolvedInit (init w p)
  | step_update (w w2 : World) (p : PartialConfig) :
      ReachResolvedInit w → updateConfig w p = Except.ok w2 → ReachResolvedInit w2
  | step_destroy (w w2 : World) :
      ReachResolvedInit w → destroy w = Except.ok w2 → ReachResolvedInit w2
  | step_fire (w w2 : World) (i : Nat) :
      ReachResolvedInit w → fireTimer w i = Except.ok w2 → ReachResolvedInit w2

end TypifyV2

namespace TypifyV2

open Typify

/-- Abbreviation: the effective configuration of an `init` call. -/
def cfgOf (p : PartialConfig) : Config := mergeCfg defaultOptions p

/-- A fresh element of the pristine visual tree. -/
def emptyElem : Elem := { children := [], classes := [], color := "", animationDuration := "" }

/-- The target element of the no-intervention ("quiet") run after `k`
characters were revealed: the revealed prefix as text nodes, then the
cursor span (id 0) if configured; classes/styles as `init` set them. -/
def quietElem (p : PartialConfig) (k : Nat) : Elem :=
  { children := ((cfgOf p).text.take k).map Node.text ++
      (if (cfgOf p).cursor then [Node.span 0] else [])
    classes := if (cfgOf p).animation ≠ "none" then
        ["typify-animation-" ++ (cfgOf p).animation] else []
    color := (cfgOf p).color
    animationDuration := if (cfgOf p).animation ≠ "none" then
        toString (cfgOf p).animationDuration ++ "ms" else "" }

/-- The world right after a successful `init` on the pristine state:
start-delay timeout (id 0) pending, nothing revealed. -/
def quietStart (r : String → Option Nat) (p : PartialConfig) (e : Nat) : World :=
  { config := cfgOf p
    isInitialized := true
    typingInterval := none
    currentIndex := 0
    text := (cfgOf p).text
    element := some e
    cursorElement := if (cfgOf p).cursor then some 0 else none
    animationClass := if (cfgOf p).animation ≠ "none" then
        "typify-animation-" ++ (cfgOf p).animation else ""
    elems := setFn (fun _ => emptyElem) e (quietElem p 0)
    spanText := if (cfgOf p).cursor then setFn (fun _ => "") 0 (cfgOf p).cursorStyle
        else (fun _ => "")
    resolve := r
    timers := [{ id := 0, kind := TKind.startCb, fire := (cfgOf p).delay, period := 0 }]
    nextTimerId := 1
    nextSpanId := if (cfgOf p).cursor then 1 else 0
    now := 0
    errorLog := [] }

/-- The world of the quiet run after the start-delay fired and `k`
reveal ticks ran: interval id 1 armed, next fire one period ahead. -/
def quietTick (r : String → Option Nat) (p : PartialConfig) (e : Nat) (k : Nat) : World :=
  { quietStart r p e with
      typingInterval := some 1
      currentIndex := k
      elems := setFn (fun _ => emptyElem) e (quietElem p k)
      timers := [⟨1, TKind.tick, (cfgOf p).delay + (k + 1) * (cfgOf p).speed, (cfgOf p).speed⟩]
      nextTimerId := 2
      now := (cfgOf p).delay + k * (cfgOf p).speed }

/-- The terminal world of the non-looping quiet run: the tick after the
last reveal cancelled the interval. -/
def quietEnd (r : String → Option Nat) (p : PartialConfig) (e : Nat) : World :=
  { quietTick r p e (cfgOf p).text.length with
      timers := []
      now := (cfgOf p).delay + ((cfgOf p).text.length + 1) * (cfgOf p).speed }

end TypifyV2

namespace TypifyV2

open Typify

/-- The concrete options of the C1 witness run. -/
def c1Opts : PartialConfig := { text := some ['H', 'i'], speed := some 10, delay := some 7 }

end TypifyV2

namespace TypifyV1

open Typify

/-- The configuration object of `src/typify.js` (v1: no animation,
color or duration options). -/
structure Config where
  selector : String
  text : List Char
  speed : Nat
  loop : Bool
  cursor : Bool
  cursorStyle : String
  delay : Nat
deriving DecidableEq

/-- The `defaultOptions` object of v1 `init` (lines 25–33). -/
def defaultOptions : Config :=
  { selector := "#typing-demo"
    text := "Hello, TurboChat!".data
    speed := 100
    loop := false
    cursor := true
    cursorStyle := "|"
    delay := 500 }

/-- A user-supplied (partial) configuration object for v1. -/
structure PartialConfig where
  selector : Option String := none
  text : Option (List Char) := none
  speed : Option Nat := none
  loop : Option Bool := none
  cursor : Option Bool := none
  cursorStyle : Option String := none
  delay : Option Nat := none

/-- Object spread `{ ...c, ...p }` for v1. -/
def mergeCfg (c : Config) (p : PartialConfig) : Config :=
  { selector := p.selector.getD c.selector
    text := p.text.getD c.text
    speed := p.speed.getD c.speed
    loop := p.loop.getD c.loop
    cursor := p.cursor.getD c.cursor
    cursorStyle := p.cursorStyle.getD c.cursorStyle
    delay := p.delay.getD c.delay }

/-- An element of the visual tree as v1 uses it: v1 never touches class
lists or style properties, only children. -/
structure Elem where
  children : List Node
deriving DecidableEq

/-- The v1 singleton state plus host environment (no `animationClass`
field, v1 lines 10–17). -/
structure World where
  config : Config
  isInitialized : Bool
  typingInterval : Option Nat
  currentIndex : Nat
  text : List Char
  element : Option Nat
  cursorElement : Option Nat
  elems : Nat → Elem
  spanText : Nat → String
  resolve : String → Option Nat
  timers : List Timer
  nextTimerId : Nat
  nextSpanId : Nat
  now : Nat
  errorLog : List String

/-- The pristine v1 world. -/
def mkClean (r : String → Option Nat) : World :=
  { config :=
      { selector := ""
        text := []
        speed := 0
        loop := false
        cursor := false
        cursorStyle := ""
        delay := 0 }
    isInitialized := false
    typingInterval := none
    currentIndex := 0
    text := []
    element := none
    cursorElement := none
    elems := fun _ => { children := [] }
    spanText := fun _ => ""
    resolve := r
    timers := []
    nextTimerId := 0
    nextSpanId := 0
    now := 0
    errorLog := [] }

/-- Apply an update to one element of the visual tree. -/
def modifyElem (w : World) (e : Nat) (g : Elem → Elem) : World :=
  { w with elems := setFn w.elems e (g (w.elems e)) }

/-- `clearInterval(this.typingInterval)`. -/
def clearInterval (w : World) (oi : Option Nat) : World :=
  { w with timers := removeTimers w.timers oi }

/-- `setTimeout(() => this.startTyping(), this.config.delay)`. -/
def scheduleStart (w : World) : World :=
  { w with
      timers := w.timers ++ [{ id := w.nextTimerId, kind := TKind.startCb,
                               fire := w.now + w.config.delay, period := 0 }]
      nextTimerId := w.nextTimerId + 1 }

/-- `startTyping` (v1, lines 67–90): arm the repeating reveal interval. -/
def startTyping (w : World) : World :=
  { w with
      timers := w.timers ++ [{ id := w.nextTimerId, kind := TKind.tick,
                               fire := w.now + w.config.speed, period := w.config.speed }]
      nextTimerId := w.nextTimerId + 1
      typingInterval := some w.nextTimerId }

/-- The mutations of v1 `resetTyping` before the cursor re-append
(lines 96–97). -/
def resetPlain (w : World) (e : Nat) : World :=
  modifyElem { w with currentIndex := 0 } e (fun el => { el with children := [] })

/-- `resetTyping` (v1, lines 95–101). -/
def resetTyping (w : World) : Except Err World :=
  match w.element with
  | none => Except.error Err.nullElem
  | some e =>
    if w.config.cursor then
      match w.cursorElement with
      | none => Except.error Err.nullCursor
      | some c =>
        Except.ok (modifyElem (resetPlain w e) e
          (fun el => { el with children := el.children ++ [Node.span c] }))
    else Except.ok (resetPlain w e)

/-- The first mutations of the successful path of v1 `init` (lines
34–46): store the merged config and element, set the text, zero the
index, clear the content. -/
def initBase (w : World) (p : PartialConfig) (e : Nat) : World :=
  { modifyElem { w with config := mergeCfg defaultOptions p, element := some e }
      e (fun el => { el with children := [] })
    with text := (mergeCfg defaultOptions p).text, currentIndex := 0 }

/-- Create a fresh cursor span and append it (v1, `init` lines 49–54
and `updateConfig` lines 131–136). -/
def attachCursor (w : World) (e : Nat) : World :=
  modifyElem
    { w with
        nextSpanId := w.nextSpanId + 1
        spanText := setFn w.spanText w.nextSpanId w.config.cursorStyle
        cursorElement := some w.nextSpanId }
    e (fun el => { el with children := el.children ++ [Node.span w.nextSpanId] })

/-- v1 `init`'s cursor step (lines 48–54). -/
def initCursor (w : World) (e : Nat) : World :=
  if w.config.cursor then attachCursor w e else w

/-- `init` (v1, lines 23–62). -/
def init (w : World) (p : PartialConfig) : World :=
  match w.resolve (mergeCfg defaultOptions p).selector with
  | none =>
    { w with
        config := mergeCfg defaultOptions p
        element := none
        errorLog := w.errorLog ++
          ["Typify Error: No element found for selector " ++
            (mergeCfg defaultOptions p).selector] }
  | some e =>
    { scheduleStart (initCursor (initBase w p e) e) with isInitialized := true }

/-- The body of the `setInterval` callback of v1 `startTyping`
(lines 68–89). -/
def tickBody (w : World) : Except Err World :=
  if w.currentIndex < w.text.length then
    match w.element with
    | none => Except.error Err.nullElem
    | some e =>
      match w.cursorElement with
      | some cid =>
        match insertBeforeNode (Node.span cid) (Node.text (w.text.getD w.currentIndex ' '))
            ((w.elems e).children) with
        | none => Except.error Err.notFound
        | some l =>
          Except.ok { modifyElem w e (fun el => { el with children := l }) with
                        currentIndex := w.currentIndex + 1 }
      | none =>
        Except.ok
          { modifyElem w e (fun el =>
              { el with children := el.children ++ [Node.text (w.text.getD w.currentIndex ' ')] })
            with currentIndex := w.currentIndex + 1 }
  else
    if w.config.loop then
      match resetTyping (clearInterval w w.typingInterval) with
      | .error er => Except.error er
      | .ok w2 => Except.ok (scheduleStart w2)
    else Except.ok (clearInterval w w.typingInterval)

/-- Fire the pending timer with the given id (v1). -/
def fireTimer (w : World) (i : Nat) : Except Err World :=
  match findTimer w.timers i with
  | none => Except.ok w
  | some t =>
    match t.kind with
    | .startCb =>
      Except.ok (startTyping
        { w with now := t.fire, timers := w.timers.filter (fun u => u.id ≠ i) })
    | .tick =>
      tickBody
        { w with
            now := t.fire
            timers := w.timers.map
              (fun u => if u.id = i then { u with fire := u.fire + u.period } else u) }

/-- v1 `updateConfig` text branch (lines 113–121). -/
def textStep (w : World) (p : PartialConfig) : Except Err World :=
  match p.text with
  | some t =>
    if t ≠ [] ∧ t ≠ w.text then
      match resetTyping { w with text := t } with
      | .error er => Except.error er
      | .ok w2 => Except.ok (scheduleStart (clearInterval w2 w2.typingInterval))
    else Except.ok w
  | none => Except.ok w

/-- v1 `updateConfig` speed branch (lines 123–127). -/
def speedStep (w : World) (p : PartialConfig) : World :=
  match p.speed with
  | some s => if s ≠ 0 then startTyping (clearInterval w w.typingInterval) else w
  | none => w

/-- v1 `updateConfig` cursor branch (lines 129–142). -/
def cursorStep (w : World) (p : PartialConfig) : Except Err World :=
  match p.cursor with
  | none => Except.ok w
  | some b =>
    if b then
      match w.cursorElement with
      | some _ => Except.ok w
      | none =>
        match w.element with
        | none => Except.error Err.nullElem
        | some e => Except.ok (attachCursor w e)
    else
      match w.cursorElement with
      | none => Except.ok w
      | some c =>
        match w.element with
        | none => Except.error Err.nullElem
        | some e =>
          match removeFirstNode (Node.span c) ((w.elems e).children) with
          | none => Except.error Err.notFound
          | some l =>
            Except.ok { modifyElem w e (fun el => { el with children := l }) with
                          cursorElement := none }

/-- v1 `updateConfig` cursor-style branch (lines 144–147): the new text
content is `newConfig.cursorStyle` itself. -/
def cursorStyleStep (w : World) (p : PartialConfig) : World :=
  match p.cursorStyle with
  | some cs =>
    if cs ≠ "" then
      match w.cursorElement with
      | some c => { w with spanText := setFn w.spanText c cs }
      | none => w
    else w
  | none => w

/-- `updateConfig` (v1, lines 107–151). -/
def updateConfig (w : World) (p : PartialConfig) : Except Err World :=
  if w.isInitialized then
    match textStep { w with config := mergeCfg w.config p } p with
    | .error er => Except.error er
    | .ok w1 =>
      match cursorStep (speedStep w1 p) p with
      | .error er => Except.error er
      | .ok w2 => Except.ok (cursorStyleStep w2 p)
  else Except.ok w

/-- `destroy` (v1, lines 156–162). -/
def destroy (w : World) : Except Err World :=
  if w.isInitialized then
    match w.element with
    | none => Except.error Err.nullElem
    | some e =>
      Except.ok { modifyElem (clearInterval w w.typingInterval) e
          (fun el => { el with children := [] })
        with isInitialized := false }
  else Except.ok w

/-- An external event against the v1 animator. -/
inductive Action
  | init (p : PartialConfig)
  | update (p : PartialConfig)
  | destroy
  | fire (i : Nat)

/-- One external event (v1). -/
def exec (w : World) : Action → Except Err World
  | .init p => Except.ok (init w p)
  | .update p => updateConfig w p
  | .destroy => destroy w
  | .fire i => fireTimer w i

/-- A sequence of external events (v1). -/
def execs (w : World) : List Action → Except Err World
  | [] => Except.ok w
  | a :: rest =>
    match exec w a with
    | .error er => Except.error er
    | .ok w2 => execs w2 rest

end TypifyV1

namespace TypifyV1

open Typify

/-- Forget the v2-only config fields (animation, color, duration). -/
def projC (c : TypifyV2.Config) : Config :=
  { selector := c.selector, text := c.text, speed := c.speed, loop := c.loop,
    cursor := c.cursor, cursorStyle := c.cursorStyle, delay := c.delay }

/-- Forget the v2-only element state (class list, style properties). -/
def projE (el : TypifyV2.Elem) : Elem := { children := el.children }

/-- Forget the v2-only state: everything the two versions share —
children of every element (the revealed characters and the cursor
placement), the timer queue (arm/cancel state), and all the shared
singleton fields. -/
def projW (w : TypifyV2.World) : World :=
  { config := projC w.config
    isInitialized := w.isInitialized
    typingInterval := w.typingInterval
    currentIndex := w.currentIndex
    text := w.text
    element := w.element
    cursorElement := w.cursorElement
    elems := fun i => projE (w.elems i)
    spanText := w.spanText
    resolve := w.resolve
    timers := w.timers
    nextTimerId := w.nextTimerId
    nextSpanId := w.nextSpanId
    now := w.now
    errorLog := w.errorLog }

/-- A shared (v1-vocabulary) partial config, read as a v2 one: the
v2-only keys are absent. -/
def liftP (p : PartialConfig) : TypifyV2.PartialConfig :=
  { selector := p.selector, text := p.text, speed := p.speed, loop := p.loop,
    cursor := p.cursor, cursorStyle := p.cursorStyle, delay := p.delay }

/-- A shared external event, read as a v2 one. -/
def liftA : Action → TypifyV2.Action
  | .init p => .init (liftP p)
  | .update p => .update (liftP p)
  | .destroy => .destroy
  | .fire i => .fire i

/-- Invariant of v2 runs driven only by shared options: the stored
animation is the default `"none"` — or nothing has happened yet (the
pristine config is only overwritten by `init`, which installs
`"none"`, and until then no timer is pending and the animator is
uninitialized, so the animation field is never read). -/
def Anim (w : TypifyV2.World) : Prop :=
  w.config.animation = "none" ∨ (w.isInitialized = false ∧ w.timers = [])

end TypifyV1

namespace Typify

theorem setFn_setFn {α : Type} (f : Nat → α) (i : Nat) (a b : α) :
    setFn (setFn f i a) i b = setFn f i b := by
  funext j
  simp only [setFn]
  split <;> rfl

theorem setFn_same {α : Type} (f : Nat → α) (i : Nat) (v : α) : setFn f i v i = v := by
  simp [setFn]

end Typify

namespace TypifyV2

open Typify

theorem find?_filter_of_imp {p q : Timer → Bool} (l : List Timer)
    (h : ∀ x, p x = true → q x = true) : (l.filter q).find? p = l.find? p := by
  induction l with
  | nil => rfl
  | cons x xs ih =>
    by_cases hp : p x = true
    · have hq := h x hp
      simp [List.filter_cons, hq, List.find?_cons_of_pos, hp]
    · by_cases hqx : q x = true
      · rw [List.filter_cons, if_pos hqx, List.find?_cons_of_neg _ hp,
            List.find?_cons_of_neg _ hp, ih]
      · rw [List.filter_cons, if_neg hqx, List.find?_cons_of_neg _ hp, ih]

end TypifyV2

namespace TypifyV2

open Typify

/-- C2 — counterexample.  Claim: for every sequence of calls interleaved
with timer firings, at most one reveal ticker is armed at any instant.
Refuted: two `init` calls leave two start-delay timeouts pending (`init`
never cancels timers); when both fire — in arming order, as a real event
loop would — each runs `startTyping`, which arms a fresh interval
without cancelling the existing one, leaving two armed tickers. -/
theorem c2_two_tickers_counterexample :
    (execs (mkClean resolveAll)
      [Action.init {}, Action.init {}, Action.fire 0, Action.fire 1]).toOption.map
      ticksCount = some 2 := by
  rfl

/-- C3 — counterexample.  Claim: whenever the selector resolves to no
node, `init` leaves the animator not initialized (so later calls are
no-ops).  Refuted from an already-initialized state: a successful
`init("#a")` followed by a failed `init("#b")` logs the error but leaves
`isInitialized = true` (the flag is never reset on the failure path),
with a null target element. -/
theorem c3_failed_reinit_counterexample :
    (execs (mkClean resolveOnlyA)
      [Action.init { selector := some "#a" },
       Action.init { selector := some "#b" }]).toOption.map
      (fun w => (w.isInitialized, w.element, w.errorLog)) =
    some (true, none, ["Typify Error: No element found for selector #b"]) := by
  rfl

/-- C4 — the animation-update branch of `updateConfig` is dead code.
`updateConfig({animation:'slide'})` on a session initialized with
`animation:'fade'` merges the new value into `config` first (line 135),
so the guard `newConfig.animation !== this.config.animation` (line 174)
is always false: the old tag `typify-animation-fade` stays on the
element, the new tag is never applied, and `animationClass` keeps the
stale value, even though `config.animation` now reads `"slide"`. -/
theorem c4_animation_branch_dead :
    (execs (mkClean resolveAll)
      [Action.init { animation := some "fade" },
       Action.update { animation := some "slide" }]).toOption.map
      (fun w => ((w.elems 0).classes, w.config.animation, w.animationClass)) =
    some (["typify-animation-fade"], "slide", "typify-animation-fade") := by
  rfl

/-- C5 — counterexample.  Claim: any changed `text` value resets the
reveal.  Refuted at the changed value `""`: the guard
`newConfig.text && …` is JavaScript truthiness, so the empty string is
skipped — after one revealed character, `updateConfig({text:""})` leaves
`currentIndex = 1`, keeps the old text, arms no fresh start delay, and
leaves the old ticker running. -/
theorem c5_empty_text_counterexample :
    (execs (mkClean resolveAll)
      [Action.init { text := some "Hi".data },
       Action.fire 0, Action.fire 1,
       Action.update { text := some [] }]).toOption.map
      (fun w => (w.currentIndex, w.text, startCount w, ticksCount w)) =
    some (1, ['H', 'i'], 0, 1) := by
  rfl

/-- C6 — counterexample.  Claim: any changed `speed` value cancels and
restarts the ticker.  Refuted at the changed value `0`: the guard
`if (newConfig.speed)` is JavaScript truthiness, so zero is skipped —
mid-reveal, `updateConfig({speed:0})` leaves the very same interval
(id 1, period 100, next fire 700) armed: the ticker is neither cancelled
nor restarted and the old cadence persists, though `config.speed` now
reads `0`. -/
theorem c6_zero_speed_counterexample :
    (execs (mkClean resolveAll)
      [Action.init {}, Action.fire 0, Action.fire 1,
       Action.update { speed := some 0 }]).toOption.map
      (fun w => (w.timers, w.config.speed, w.currentIndex, w.typingInterval)) =
    some ([{ id := 1, kind := TKind.tick, fire := 700, period := 100 }], 0, 1, some 1) := by
  rfl

/-- C7 — counterexample.  Claim: `cursorHandle ≠ null ↔ (showCursor ∧
initialized)`.  Refuted: after `init` (cursor on by default) and
`destroy`, the handle still references the (now detached) cursor span —
`destroy` never nulls `cursorElement` — while `isInitialized` is false. -/
theorem c7_cursor_after_destroy_counterexample :
    (execs (mkClean resolveAll) [Action.init {}, Action.destroy]).toOption.map
      (fun w => (w.cursorElement, w.isInitialized, w.config.cursor)) =
    some (some 0, false, true) := by
  rfl

/-- C8 — `destroy` is idempotent: if a `destroy` call completes with
state `w'`, a second `destroy` is a no-op (it returns `w'` unchanged,
touching neither the animator state nor the visual tree), because the
first call left `isInitialized = false` and the second returns at the
gate. -/
theorem c8_destroy_idempotent (w w' : World) (h : destroy w = Except.ok w') :
    destroy w' = Except.ok w' := by
  by_cases hi : w.isInitialized
  · rw [destroy, if_pos hi] at h
    rcases he : w.element with _ | e
    · rw [he] at h
      simp at h
    · rw [he] at h
      injection h with h2
      subst h2
      rfl
  · rw [destroy, if_neg hi] at h
    injection h with h2
    subst h2
    rw [destroy, if_neg hi]

/-- C8 — witness: a concrete completed `destroy` (from the pristine,
uninitialized state) after which a second `destroy` is a no-op. -/
theorem c8_destroy_idempotent_witness :
    destroy (mkClean resolveAll) = Except.ok (mkClean resolveAll) :=
  c8_destroy_idempotent (mkClean resolveAll) (mkClean resolveAll) rfl

end TypifyV2

namespace TypifyV2

open Typify

/-- C9 — `destroy` does not cancel a pending one-shot start-delay
callback: `destroy` only runs `clearInterval(this.typingInterval)` (and
`typingInterval` only ever holds ids of reveal intervals, never of the
timeout, whence the hypothesis `hni`), so the timeout stays pending and
`isInitialized` becomes false; when the event loop later fires it,
`startTyping` runs unconditionally, arming a fresh repeating reveal
ticker and storing its id, while the animator is uninitialized. -/
theorem c9_start_delay_survives_destroy (w w' : World) (i : Nat) (t : Timer)
    (hfind : findTimer w.timers i = some t) (hk : t.kind = TKind.startCb)
    (hni : w.typingInterval ≠ some i)
    (hd : destroy w = Except.ok w') :
    findTimer w'.timers i = some t ∧ w'.isInitialized = false ∧
    ∀ w2, fireTimer w' i = Except.ok w2 →
      w2.isInitialized = false ∧ w2.typingInterval = some w'.nextTimerId ∧
      ∃ u ∈ w2.timers, u.kind = TKind.tick ∧ u.id = w'.nextTimerId := by
  obtain ⟨tid, tk, tf, tp⟩ := t
  subst hk
  have key : ∀ v : World, findTimer v.timers i = some ⟨tid, TKind.startCb, tf, tp⟩ →
      v.isInitialized = false →
      findTimer v.timers i = some ⟨tid, TKind.startCb, tf, tp⟩ ∧ v.isInitialized = false ∧
      ∀ w2, fireTimer v i = Except.ok w2 →
        w2.isInitialized = false ∧ w2.typingInterval = some v.nextTimerId ∧
        ∃ u ∈ w2.timers, u.kind = TKind.tick ∧ u.id = v.nextTimerId := by
    intro v hf hii
    refine ⟨hf, hii, ?_⟩
    intro w2 hfire
    rw [fireTimer, hf] at hfire
    injection hfire with h2
    subst h2
    refine ⟨hii, rfl, ?_⟩
    refine ⟨⟨v.nextTimerId, TKind.tick, tf + v.config.speed, v.config.speed⟩, ?_, rfl, rfl⟩
    simp [startTyping]
  by_cases hi : w.isInitialized
  · rw [destroy, if_pos hi] at hd
    rcases he : w.element with _ | e
    · rw [he] at hd
      simp at hd
    · rw [he] at hd
      injection hd with h2
      subst h2
      refine key _ ?_ rfl
      show findTimer (removeTimers w.timers w.typingInterval) i = _
      rcases hti : w.typingInterval with _ | j
      · exact hfind
      · have hji : j ≠ i := fun h => hni (by rw [hti, h])
        have himp : ∀ x : Timer, decide (x.id = i) = true → decide (x.id ≠ j) = true := by
          intro x hx
          rw [decide_eq_true_eq] at hx
          rw [decide_eq_true_eq, hx]
          exact fun hh => hji hh.symm
        calc findTimer (removeTimers w.timers (some j)) i
            = findTimer w.timers i := find?_filter_of_imp _ himp
          _ = _ := hfind
  · rw [destroy, if_neg hi] at hd
    injection hd with h2
    subst h2
    exact key w hfind (by simpa using hi)

/-- C9 — witness: the theorem applied to the concrete pending timeout of
a fresh default `init` followed by `destroy`. -/
theorem c9_start_delay_survives_destroy_witness :
    findTimer c9StateAfter.timers 0 = some ⟨0, TKind.startCb, 500, 0⟩ ∧
    c9StateAfter.isInitialized = false ∧
    ∀ w2, fireTimer c9StateAfter 0 = Except.ok w2 →
      w2.isInitialized = false ∧ w2.typingInterval = some c9StateAfter.nextTimerId ∧
      ∃ u ∈ w2.timers, u.kind = TKind.tick ∧ u.id = c9StateAfter.nextTimerId :=
  c9_start_delay_survives_destroy c9StateBefore c9StateAfter 0
    ⟨0, TKind.startCb, 500, 0⟩ rfl rfl (by decide) rfl

end TypifyV2

namespace TypifyV2

open Typify

theorem modifyElem_config (w : World) (e : Nat) (g : Elem → Elem) :
    (modifyElem w e g).config = w.config := rfl

theorem modifyElem_isInitialized (w : World) (e : Nat) (g : Elem → Elem) :
    (modifyElem w e g).isInitialized = w.isInitialized := rfl

theorem modifyElem_typingInterval (w : World) (e : Nat) (g : Elem → Elem) :
    (modifyElem w e g).typingInterval = w.typingInterval := rfl

theorem modifyElem_currentIndex (w : World) (e : Nat) (g : Elem → Elem) :
    (modifyElem w e g).currentIndex = w.currentIndex := rfl

theorem modifyElem_text (w : World) (e : Nat) (g : Elem → Elem) :
    (modifyElem w e g).text = w.text := rfl

theorem modifyElem_element (w : World) (e : Nat) (g : Elem → Elem) :
    (modifyElem w e g).element = w.element := rfl

theorem modifyElem_cursorElement (w : World) (e : Nat) (g : Elem → Elem) :
    (modifyElem w e g).cursorElement = w.cursorElement := rfl

theorem modifyElem_animationClass (w : World) (e : Nat) (g : Elem → Elem) :
    (modifyElem w e g).animationClass = w.animationClass := rfl

theorem modifyElem_spanText (w : World) (e : Nat) (g : Elem → Elem) :
    (modifyElem w e g).spanText = w.spanText := rfl

theorem modifyElem_timers (w : World) (e : Nat) (g : Elem → Elem) :
    (modifyElem w e g).timers = w.timers := rfl

theorem modifyElem_nextTimerId (w : World) (e : Nat) (g : Elem → Elem) :
    (modifyElem w e g).nextTimerId = w.nextTimerId := rfl

theorem modifyElem_nextSpanId (w : World) (e : Nat) (g : Elem → Elem) :
    (modifyElem w e g).nextSpanId = w.nextSpanId := rfl

theorem modifyElem_now (w : World) (e : Nat) (g : Elem → Elem) :
    (modifyElem w e g).now = w.now := rfl

theorem modifyElem_elems (w : World) (e : Nat) (g : Elem → Elem) :
    (modifyElem w e g).elems = setFn w.elems e (g (w.elems e)) := rfl

theorem resetPlain_timers (w : World) (e : Nat) : (resetPlain w e).timers = w.timers := by
  rw [resetPlain]; split <;> rfl

theorem resetPlain_typingInterval (w : World) (e : Nat) :
    (resetPlain w e).typingInterval = w.typingInterval := by
  rw [resetPlain]; split <;> rfl

theorem resetPlain_config (w : World) (e : Nat) : (resetPlain w e).config = w.config := by
  rw [resetPlain]; split <;> rfl

theorem resetPlain_isInitialized (w : World) (e : Nat) :
    (resetPlain w e).isInitialized = w.isInitialized := by
  rw [resetPlain]; split <;> rfl

theorem resetPlain_currentIndex (w : World) (e : Nat) : (resetPlain w e).currentIndex = 0 := by
  rw [resetPlain]; split <;> rfl

theorem resetPlain_text (w : World) (e : Nat) : (resetPlain w e).text = w.text := by
  rw [resetPlain]; split <;> rfl

theorem resetPlain_element (w : World) (e : Nat) : (resetPlain w e).element = w.element := by
  rw [resetPlain]; split <;> rfl

theorem resetPlain_cursorElement (w : World) (e : Nat) :
    (resetPlain w e).cursorElement = w.cursorElement := by
  rw [resetPlain]; split <;> rfl

theorem resetPlain_animationClass (w : World) (e : Nat) :
    (resetPlain w e).animationClass = w.animationClass := by
  rw [resetPlain]; split <;> rfl

theorem resetPlain_spanText (w : World) (e : Nat) :
    (resetPlain w e).spanText = w.spanText := by
  rw [resetPlain]; split <;> rfl

theorem resetPlain_nextTimerId (w : World) (e : Nat) :
    (resetPlain w e).nextTimerId = w.nextTimerId := by
  rw [resetPlain]; split <;> rfl

theorem resetPlain_nextSpanId (w : World) (e : Nat) :
    (resetPlain w e).nextSpanId = w.nextSpanId := by
  rw [resetPlain]; split <;> rfl

theorem resetPlain_now (w : World) (e : Nat) : (resetPlain w e).now = w.now := by
  rw [resetPlain]; split <;> rfl

theorem resetPlain_children (w : World) (e : Nat) :
    ((resetPlain w e).elems e).children = [] := by
  rw [resetPlain]
  split <;> simp [modifyElem, setFn_same]

end TypifyV2

namespace TypifyV2

open Typify

theorem noTickTimers_ticksCount (w : World) (h : noTickTimers w.timers) : ticksCount w = 0 := by
  rw [ticksCount, List.length_eq_zero, List.filter_eq_nil_iff]
  intro u hu
  simp only [decide_eq_true_eq]
  exact h u hu

theorem noTicks_of_ticksCount_zero (w : World) (h : ticksCount w = 0) : noTickTimers w.timers := by
  rw [ticksCount, List.length_eq_zero, List.filter_eq_nil_iff] at h
  intro u hu
  have := h u hu
  simpa using this

theorem tickInv_of_noTicks (w : World) (h : noTickTimers w.timers) : TickInv w :=
  ⟨by rw [noTickTimers_ticksCount w h]; omega, fun u hu hk => absurd hk (h u hu)⟩

theorem tickInv_same (w w2 : World) (ht : w2.timers = w.timers)
    (hi : w2.typingInterval = w.typingInterval) (h : TickInv w) : TickInv w2 := by
  constructor
  · rw [ticksCount, ht]
    exact h.1
  · intro u hu hk
    rw [hi]
    exact h.2 u (ht ▸ hu) hk

theorem noTicks_removeSelf (w : World)
    (h2 : ∀ u ∈ w.timers, u.kind = TKind.tick → w.typingInterval = some u.id) :
    noTickTimers (removeTimers w.timers w.typingInterval) := by
  rcases hti : w.typingInterval with _ | j
  · rw [removeTimers]
    intro u hu hk
    have h3 := h2 u hu hk
    rw [hti] at h3
    exact Option.noConfusion h3
  · rw [removeTimers]
    intro u hu hk
    rw [List.mem_filter] at hu
    have hju := h2 u hu.1 hk
    rw [hti] at hju
    injection hju with hju
    have hne : u.id ≠ j := by simpa using hu.2
    exact hne hju.symm

theorem noTicks_filterId (l : List Timer) (i : Nat) (h : noTickTimers l) :
    noTickTimers (l.filter (fun u => u.id ≠ i)) := by
  intro u hu
  exact h u (List.mem_filter.1 hu).1

theorem tickInv_startTyping (w : World) (h : noTickTimers w.timers) : TickInv (startTyping w) := by
  constructor
  · show (List.filter _ (w.timers ++ [_])).length ≤ 1
    rw [List.filter_append]
    have h0 : List.filter (fun t => decide (t.kind = TKind.tick)) w.timers = [] := by
      rw [List.filter_eq_nil_iff]
      intro u hu
      simp only [decide_eq_true_eq]
      exact h u hu
    rw [h0]
    simp
  · intro u hu hk
    show some w.nextTimerId = some u.id
    rcases List.mem_append.1 hu with hl | hr
    · exact absurd hk (h u hl)
    · rcases List.mem_singleton.1 hr with rfl
      rfl

theorem noTicks_scheduleStart (w : World) (h : noTickTimers w.timers) :
    noTickTimers (scheduleStart w).timers := by
  intro u hu
  rcases List.mem_append.1 hu with hl | hr
  · exact h u hl
  · rcases List.mem_singleton.1 hr with rfl
    simp

theorem tickInv_scheduleStart (w : World) (h : TickInv w) : TickInv (scheduleStart w) := by
  constructor
  · show (List.filter _ (w.timers ++ [_])).length ≤ 1
    rw [List.filter_append]
    have h1 : List.filter (fun t => decide (t.kind = TKind.tick))
        [Timer.mk w.nextTimerId TKind.startCb (w.now + w.config.delay) 0] = [] := by
      simp
    rw [h1]
    simpa [ticksCount] using h.1
  · intro u hu hk
    show w.typingInterval = some u.id
    rcases List.mem_append.1 hu with hl | hr
    · exact h.2 u hl hk
    · rcases List.mem_singleton.1 hr with rfl
      simp at hk

end TypifyV2

namespace TypifyV2

open Typify

theorem initBase_timers (w : World) (p : PartialConfig) (e : Nat) :
    (initBase w p e).timers = w.timers := rfl

theorem initBase_typingInterval (w : World) (p : PartialConfig) (e : Nat) :
    (initBase w p e).typingInterval = w.typingInterval := rfl

theorem initAnim_timers (w : World) (e : Nat) : (initAnim w e).timers = w.timers := by
  rw [initAnim]; split <;> rfl

theorem initAnim_typingInterval (w : World) (e : Nat) :
    (initAnim w e).typingInterval = w.typingInterval := by
  rw [initAnim]; split <;> rfl

theorem attachCursor_timers (w : World) (e : Nat) : (attachCursor w e).timers = w.timers := rfl

theorem attachCursor_typingInterval (w : World) (e : Nat) :
    (attachCursor w e).typingInterval = w.typingInterval := rfl

theorem initCursor_timers (w : World) (e : Nat) : (initCursor w e).timers = w.timers := by
  rw [initCursor]; split <;> rfl

theorem initCursor_typingInterval (w : World) (e : Nat) :
    (initCursor w e).typingInterval = w.typingInterval := by
  rw [initCursor]; split <;> rfl

theorem cursorStyleStep_timers (w : World) (p : PartialConfig) :
    (cursorStyleStep w p).timers = w.timers := by
  rw [cursorStyleStep]
  repeat' split
  all_goals rfl

theorem cursorStyleStep_typingInterval (w : World) (p : PartialConfig) :
    (cursorStyleStep w p).typingInterval = w.typingInterval := by
  rw [cursorStyleStep]
  repeat' split
  all_goals rfl

theorem resetTyping_ok_fields (w w2 : World) (h : resetTyping w = Except.ok w2) :
    w2.config = w.config ∧ w2.isInitialized = w.isInitialized ∧
    w2.typingInterval = w.typingInterval ∧ w2.currentIndex = 0 ∧ w2.text = w.text ∧
    w2.element = w.element ∧ w2.cursorElement = w.cursorElement ∧
    w2.animationClass = w.animationClass ∧ w2.spanText = w.spanText ∧
    w2.timers = w.timers ∧ w2.nextTimerId = w.nextTimerId ∧
    w2.nextSpanId = w.nextSpanId ∧ w2.now = w.now := by
  rw [resetTyping] at h
  split at h
  · simp at h
  · split at h
    · split at h
      · simp at h
      · injection h with h2
        subst h2
        refine ⟨?_, ?_, ?_, ?_, ?_, ?_, ?_, ?_, ?_, ?_, ?_, ?_, ?_⟩ <;>
          simp [modifyElem_config, modifyElem_isInitialized, modifyElem_typingInterval,
            modifyElem_currentIndex, modifyElem_text, modifyElem_element,
            modifyElem_cursorElement, modifyElem_animationClass, modifyElem_spanText,
            modifyElem_timers, modifyElem_nextTimerId, modifyElem_nextSpanId, modifyElem_now,
            resetPlain_config, resetPlain_isInitialized, resetPlain_typingInterval,
            resetPlain_currentIndex, resetPlain_text, resetPlain_element,
            resetPlain_cursorElement, resetPlain_animationClass, resetPlain_spanText,
            resetPlain_timers, resetPlain_nextTimerId, resetPlain_nextSpanId, resetPlain_now]
    · injection h with h2
      subst h2
      refine ⟨?_, ?_, ?_, ?_, ?_, ?_, ?_, ?_, ?_, ?_, ?_, ?_, ?_⟩ <;>
        simp [resetPlain_config, resetPlain_isInitialized, resetPlain_typingInterval,
          resetPlain_currentIndex, resetPlain_text, resetPlain_element,
          resetPlain_cursorElement, resetPlain_animationClass, resetPlain_spanText,
          resetPlain_timers, resetPlain_nextTimerId, resetPlain_nextSpanId, resetPlain_now]

end TypifyV2

namespace TypifyV2

open Typify

theorem stripAnimationTag_timers (w : World) (e : Nat) :
    (stripAnimationTag w e).timers = w.timers := by
  rw [stripAnimationTag]; split <;> rfl

theorem stripAnimationTag_typingInterval (w : World) (e : Nat) :
    (stripAnimationTag w e).typingInterval = w.typingInterval := by
  rw [stripAnimationTag]; split <;> rfl

theorem applyAnimation_timers (w : World) (e : Nat) (a : String) :
    (applyAnimation w e a).timers = w.timers := by
  rw [applyAnimation]
  split <;> simp [modifyElem_timers, stripAnimationTag_timers]

theorem applyAnimation_typingInterval (w : World) (e : Nat) (a : String) :
    (applyAnimation w e a).typingInterval = w.typingInterval := by
  rw [applyAnimation]
  split <;> simp [modifyElem_typingInterval, stripAnimationTag_typingInterval]

theorem cursorStep_sched (w w2 : World) (p : PartialConfig) (h : cursorStep w p = Except.ok w2) :
    w2.timers = w.timers ∧ w2.typingInterval = w.typingInterval := by
  rw [cursorStep] at h
  repeat' split at h
  all_goals first
    | exact Except.noConfusion h
    | (injection h with h2; subst h2; exact ⟨rfl, rfl⟩)

theorem animationStep_sched (w w2 : World) (p : PartialConfig)
    (h : animationStep w p = Except.ok w2) :
    w2.timers = w.timers ∧ w2.typingInterval = w.typingInterval := by
  rw [animationStep] at h
  repeat' split at h
  all_goals first
    | exact Except.noConfusion h
    | (injection h with h2; subst h2; exact ⟨rfl, rfl⟩)
    | (injection h with h2; subst h2;
       exact ⟨applyAnimation_timers _ _ _, applyAnimation_typingInterval _ _ _⟩)

theorem colorStep_sched (w w2 : World) (p : PartialConfig) (h : colorStep w p = Except.ok w2) :
    w2.timers = w.timers ∧ w2.typingInterval = w.typingInterval := by
  rw [colorStep] at h
  repeat' split at h
  all_goals first
    | exact Except.noConfusion h
    | (injection h with h2; subst h2; exact ⟨rfl, rfl⟩)

theorem durationStep_sched (w w2 : World) (p : PartialConfig)
    (h : durationStep w p = Except.ok w2) :
    w2.timers = w.timers ∧ w2.typingInterval = w.typingInterval := by
  rw [durationStep] at h
  repeat' split at h
  all_goals first
    | exact Except.noConfusion h
    | (injection h with h2; subst h2; exact ⟨rfl, rfl⟩)

end TypifyV2

namespace TypifyV2

open Typify

theorem tickInv_init (w : World) (p : PartialConfig) (h : TickInv w) : TickInv (init w p) := by
  rw [init]
  rcases w.resolve (mergeCfg defaultOptions p).selector with _ | e
  · exact tickInv_same w _ rfl rfl h
  · refine tickInv_same (scheduleStart (initCursor (initAnim (initBase w p e) e) e)) _ rfl rfl
      (tickInv_scheduleStart _ ?_)
    refine tickInv_same w _ ?_ ?_ h
    · rw [initCursor_timers, initAnim_timers, initBase_timers]
    · rw [initCursor_typingInterval, initAnim_typingInterval, initBase_typingInterval]

theorem tickInv_textStep (w w2 : World) (p : PartialConfig)
    (h : textStep w p = Except.ok w2) (hI : TickInv w) : TickInv w2 := by
  rw [textStep] at h
  split at h
  · split at h
    · split at h
      · exact Except.noConfusion h
      · injection h with h2
        subst h2
        rename_i t hg wr hr
        obtain ⟨-, -, hti, -, -, -, -, -, -, htm, -, -, -⟩ :=
          resetTyping_ok_fields _ _ hr
        refine tickInv_scheduleStart _ (tickInv_of_noTicks _ ?_)
        show noTickTimers (removeTimers wr.timers wr.typingInterval)
        apply noTicks_removeSelf
        intro u hu hk
        rw [hti]
        rw [htm] at hu
        exact hI.2 u hu hk
    · injection h with h2
      subst h2
      exact hI
  · injection h with h2
    subst h2
    exact hI

theorem tickInv_speedStep (w : World) (p : PartialConfig) (hI : TickInv w) :
    TickInv (speedStep w p) := by
  rw [speedStep]
  split
  · split
    · exact tickInv_startTyping _ (noTicks_removeSelf w hI.2)
    · exact hI
  · exact hI

theorem tickInv_destroy (w w2 : World) (h : destroy w = Except.ok w2) (hI : TickInv w) :
    TickInv w2 := by
  rw [destroy] at h
  split at h
  · split at h
    · exact Except.noConfusion h
    · injection h with h2
      subst h2
      exact tickInv_of_noTicks _ (noTicks_removeSelf w hI.2)
  · injection h with h2
    subst h2
    exact hI

theorem tickInv_tickBody (w w2 : World) (h : tickBody w = Except.ok w2) (hI : TickInv w) :
    TickInv w2 := by
  rw [tickBody] at h
  split at h
  · split at h
    · exact Except.noConfusion h
    · split at h
      · split at h
        · exact Except.noConfusion h
        · injection h with h2
          subst h2
          exact tickInv_same w _ rfl rfl hI
      · injection h with h2
        subst h2
        exact tickInv_same w _ rfl rfl hI
  · split at h
    · split at h
      · exact Except.noConfusion h
      · injection h with h2
        subst h2
        rename_i wr hr
        obtain ⟨-, -, hti, -, -, -, -, -, -, htm, -, -, -⟩ :=
          resetTyping_ok_fields _ _ hr
        refine tickInv_scheduleStart _ (tickInv_of_noTicks _ ?_)
        rw [htm]
        show noTickTimers (removeTimers w.timers w.typingInterval)
        exact noTicks_removeSelf w hI.2
    · injection h with h2
      subst h2
      exact tickInv_of_noTicks _ (noTicks_removeSelf w hI.2)

end TypifyV2

namespace TypifyV2

open Typify

theorem tickInv_updateConfig (w w2 : World) (p : PartialConfig)
    (h : updateConfig w p = Except.ok w2) (hI : TickInv w) : TickInv w2 := by
  rw [updateConfig] at h
  split at h
  · split at h
    · exact Except.noConfusion h
    · rename_i w1 h1
      have hI1 : TickInv w1 :=
        tickInv_textStep _ _ _ h1 (tickInv_same w _ rfl rfl hI)
      split at h
      · exact Except.noConfusion h
      · rename_i wb hb
        have hIb : TickInv wb := by
          obtain ⟨ht, hti⟩ := cursorStep_sched _ _ _ hb
          exact tickInv_same _ _ ht hti (tickInv_speedStep _ _ hI1)
        split at h
        · exact Except.noConfusion h
        · rename_i wc hc
          have hIc : TickInv wc := by
            obtain ⟨ht, hti⟩ := animationStep_sched _ _ _ hc
            refine tickInv_same _ _ ?_ ?_ hIb
            · rw [ht, cursorStyleStep_timers]
            · rw [hti, cursorStyleStep_typingInterval]
          split at h
          · exact Except.noConfusion h
          · rename_i wd hd
            have hId : TickInv wd := by
              obtain ⟨ht, hti⟩ := colorStep_sched _ _ _ hd
              exact tickInv_same _ _ ht hti hIc
            obtain ⟨ht, hti⟩ := durationStep_sched _ _ _ h
            exact tickInv_same _ _ ht hti hId
  · injection h with h2
    subst h2
    exact hI

theorem mem_resched (l : List Timer) (i : Nat) (u : Timer)
    (hu : u ∈ l.map (fun v => if v.id = i then { v with fire := v.fire + v.period } else v)) :
    ∃ v ∈ l, u.kind = v.kind ∧ u.id = v.id := by
  rcases List.mem_map.1 hu with ⟨v, hv, rfl⟩
  refine ⟨v, hv, ?_⟩
  split <;> exact ⟨rfl, rfl⟩

theorem length_filter_resched (l : List Timer) (i : Nat) :
    (List.filter (fun t => decide (t.kind = TKind.tick))
      (l.map (fun v => if v.id = i then { v with fire := v.fire + v.period } else v))).length =
    (List.filter (fun t => decide (t.kind = TKind.tick)) l).length := by
  induction l with
  | nil => rfl
  | cons x xs ih =>
    rw [List.map_cons, List.filter_cons, List.filter_cons]
    have hk : (if x.id = i then { x with fire := x.fire + x.period } else x).kind = x.kind := by
      split <;> rfl
    rw [hk]
    split <;> simp [ih]

theorem tickInv_resched (w : World) (i : Nat) (t : Timer) (hI : TickInv w) :
    TickInv { w with
      now := t.fire
      timers := w.timers.map
        (fun u => if u.id = i then { u with fire := u.fire + u.period } else u) } := by
  constructor
  · show (List.filter _ (w.timers.map _)).length ≤ 1
    rw [length_filter_resched]
    exact hI.1
  · intro u hu hk
    obtain ⟨v, hv, hkk, hid⟩ := mem_resched w.timers i u hu
    show w.typingInterval = some u.id
    rw [hid]
    exact hI.2 v hv (hkk ▸ hk)

theorem tickInv_fireTimer (w w2 : World) (i : Nat) (t : Timer)
    (hf : findTimer w.timers i = some t)
    (hsafe : t.kind = TKind.startCb → ticksCount w = 0)
    (h : fireTimer w i = Except.ok w2) (hI : TickInv w) : TickInv w2 := by
  obtain ⟨tid, tk, tf, tp⟩ := t
  rw [fireTimer, hf] at h
  rcases tk with _ | _
  · injection h with h2
    subst h2
    refine tickInv_startTyping _ ?_
    show noTickTimers (List.filter _ w.timers)
    exact noTicks_filterId _ _ (noTicks_of_ticksCount_zero w (hsafe rfl))
  · exact tickInv_tickBody _ _ h (tickInv_resched w i ⟨tid, TKind.tick, tf, tp⟩ hI)

end TypifyV2

namespace TypifyV2

open Typify

theorem tickInv_of_reachSafe (r : String → Option Nat) (w : World)
    (h : ReachSafe r w) : TickInv w := by
  induction h with
  | base =>
    refine ⟨by rw [ticksCount]; simp [mkClean], ?_⟩
    intro u hu
    simp [mkClean] at hu
  | step_init w p hr ih => exact tickInv_init w p ih
  | step_update w w2 p hr hok ih => exact tickInv_updateConfig w w2 p hok ih
  | step_destroy w w2 hr hok ih => exact tickInv_destroy w w2 hok ih
  | step_fire_tick w w2 i t hr hf hk hok ih =>
    exact tickInv_fireTimer w w2 i t hf (fun hc => by rw [hk] at hc; exact TKind.noConfusion hc)
      hok ih
  | step_fire_start w w2 i t hr hf hk h0 hok ih =>
    exact tickInv_fireTimer w w2 i t hf (fun _ => h0) hok ih
  | step_fire_missing w i hr hf ih => exact ih

/-- C2 (amended) — single-ticker invariant under the start-delay
proviso: in every state reachable by `init` / `updateConfig` / `destroy`
calls and timer firings in which each start-delay callback fires only
while no ticker is armed, at most one reveal ticker is armed; moreover
(via `TickInv`) every armed ticker is the one registered in
`typingInterval`, so the cancel-before-rearm paths of `updateConfig`,
`destroy` and the tick body always cancel the armed ticker first.
Without the proviso the property fails (see the counterexample): a
start-delay callback runs `startTyping`, which arms a new interval
without cancelling an existing one. -/
theorem c2_at_most_one_ticker_of_safe (r : String → Option Nat) (w : World)
    (h : ReachSafe r w) : ticksCount w ≤ 1 :=
  (tickInv_of_reachSafe r w h).1

/-- C2 (amended) — witness at a concrete reachable state: a fresh
default `init` whose start-delay callback then fires (legally: no ticker
is armed at that point), leaving exactly one armed ticker. -/
theorem c2_at_most_one_ticker_of_safe_witness :
    ticksCount (runWorld resolveAll [Action.init {}, Action.fire 0]) ≤ 1 :=
  c2_at_most_one_ticker_of_safe resolveAll _
    (ReachSafe.step_fire_start (init (mkClean resolveAll) {}) _ 0
      ⟨0, TKind.startCb, 500, 0⟩
      (ReachSafe.step_init (mkClean resolveAll) {} ReachSafe.base)
      (by rfl) rfl (by rfl) (by rfl))

end TypifyV2

namespace TypifyV2

open Typify

theorem initBase_config (w : World) (p : PartialConfig) (e : Nat) :
    (initBase w p e).config = mergeCfg defaultOptions p := rfl

theorem initBase_cursorElement (w : World) (p : PartialConfig) (e : Nat) :
    (initBase w p e).cursorElement = w.cursorElement := rfl

theorem initAnim_config (w : World) (e : Nat) : (initAnim w e).config = w.config := by
  rw [initAnim]; split <;> rfl

theorem initAnim_cursorElement (w : World) (e : Nat) :
    (initAnim w e).cursorElement = w.cursorElement := by
  rw [initAnim]; split <;> rfl

theorem attachCursor_config (w : World) (e : Nat) : (attachCursor w e).config = w.config := rfl

theorem attachCursor_cursorElement (w : World) (e : Nat) :
    (attachCursor w e).cursorElement = some w.nextSpanId := rfl

theorem applyAnimation_config (w : World) (e : Nat) (a : String) :
    (applyAnimation w e a).config = w.config := by
  rw [applyAnimation, stripAnimationTag]
  split <;> split <;> rfl

theorem applyAnimation_cursorElement (w : World) (e : Nat) (a : String) :
    (applyAnimation w e a).cursorElement = w.cursorElement := by
  rw [applyAnimation, stripAnimationTag]
  split <;> split <;> rfl

theorem textStep_cursor_fields (w w2 : World) (p : PartialConfig)
    (h : textStep w p = Except.ok w2) :
    w2.config = w.config ∧ w2.cursorElement = w.cursorElement := by
  rw [textStep] at h
  split at h
  · split at h
    · split at h
      · exact Except.noConfusion h
      · injection h with h2
        subst h2
        rename_i t hg wr hr
        obtain ⟨hc, -, -, -, -, -, hcur, -, -, -, -, -, -⟩ := resetTyping_ok_fields _ _ hr
        exact ⟨hc, hcur⟩
    · injection h with h2
      subst h2
      exact ⟨rfl, rfl⟩
  · injection h with h2
    subst h2
    exact ⟨rfl, rfl⟩

theorem speedStep_cursor_fields (w : World) (p : PartialConfig) :
    (speedStep w p).config = w.config ∧ (speedStep w p).cursorElement = w.cursorElement := by
  rw [speedStep]
  repeat' split
  all_goals exact ⟨rfl, rfl⟩

theorem cursorStyleStep_cursor_fields (w : World) (p : PartialConfig) :
    (cursorStyleStep w p).config = w.config ∧
    (cursorStyleStep w p).cursorElement = w.cursorElement := by
  rw [cursorStyleStep]
  repeat' split
  all_goals exact ⟨rfl, rfl⟩

theorem animationStep_cursor_fields (w w2 : World) (p : PartialConfig)
    (h : animationStep w p = Except.ok w2) :
    w2.config = w.config ∧ w2.cursorElement = w.cursorElement := by
  rw [animationStep] at h
  repeat' split at h
  all_goals first
    | exact Except.noConfusion h
    | (injection h with h2; subst h2; exact ⟨rfl, rfl⟩)
    | (injection h with h2; subst h2;
       exact ⟨applyAnimation_config _ _ _, applyAnimation_cursorElement _ _ _⟩)

theorem colorStep_cursor_fields (w w2 : World) (p : PartialConfig)
    (h : colorStep w p = Except.ok w2) :
    w2.config = w.config ∧ w2.cursorElement = w.cursorElement := by
  rw [colorStep] at h
  repeat' split at h
  all_goals first
    | exact Except.noConfusion h
    | (injection h with h2; subst h2; exact ⟨rfl, rfl⟩)

theorem durationStep_cursor_fields (w w2 : World) (p : PartialConfig)
    (h : durationStep w p = Except.ok w2) :
    w2.config = w.config ∧ w2.cursorElement = w.cursorElement := by
  rw [durationStep] at h
  repeat' split at h
  all_goals first
    | exact Except.noConfusion h
    | (injection h with h2; subst h2; exact ⟨rfl, rfl⟩)

theorem cursorStep_cursorInv (w w2 : World) (p : PartialConfig)
    (h : cursorStep w p = Except.ok w2)
    (hnone : p.cursor = none → w.config.cursor = true → w.cursorElement.isSome = true)
    (hsome : ∀ b, p.cursor = some b → w.config.cursor = b) :
    w2.config = w.config ∧ (w2.config.cursor = true → w2.cursorElement.isSome = true) := by
  rw [cursorStep] at h
  split at h
  · rename_i hp
    injection h with h2
    subst h2
    exact ⟨rfl, hnone hp⟩
  · rename_i b hp
    split at h
    · rename_i hb
      split at h
      · rename_i c hc
        injection h with h2
        subst h2
        refine ⟨rfl, fun _ => ?_⟩
        rw [hc]
        rfl
      · split at h
        · exact Except.noConfusion h
        · injection h with h2
          subst h2
          exact ⟨rfl, fun _ => rfl⟩
    · rename_i hb
      split at h
      · injection h with h2
        subst h2
        refine ⟨rfl, fun hcT => ?_⟩
        have hcT2 : w.config.cursor = true := hcT
        have hbv := hsome b hp
        rw [hcT2] at hbv
        simp at hb
        rw [hb] at hbv
        exact Bool.noConfusion hbv
      · split at h
        · exact Except.noConfusion h
        · split at h
          · exact Except.noConfusion h
          · injection h with h2
            subst h2
            refine ⟨rfl, fun hcT => ?_⟩
            have hcT2 : w.config.cursor = true := hcT
            have hbv := hsome b hp
            rw [hcT2] at hbv
            simp at hb
            rw [hb] at hbv
            exact Bool.noConfusion hbv

end TypifyV2

namespace TypifyV2

open Typify

theorem destroy_cursor_fields (w w2 : World) (h : destroy w = Except.ok w2) :
    w2.config = w.config ∧ w2.cursorElement = w.cursorElement := by
  rw [destroy] at h
  repeat' split at h
  all_goals first
    | exact Except.noConfusion h
    | (injection h with h2; subst h2; exact ⟨rfl, rfl⟩)

theorem tickBody_cursor_fields (w w2 : World) (h : tickBody w = Except.ok w2) :
    w2.config = w.config ∧ w2.cursorElement = w.cursorElement := by
  rw [tickBody] at h
  split at h
  · repeat' split at h
    all_goals first
      | exact Except.noConfusion h
      | (injection h with h2; subst h2; exact ⟨rfl, rfl⟩)
  · split at h
    · split at h
      · exact Except.noConfusion h
      · injection h with h2
        subst h2
        rename_i wr hr
        obtain ⟨hc, -, -, -, -, -, hcur, -, -, -, -, -, -⟩ := resetTyping_ok_fields _ _ hr
        exact ⟨hc, hcur⟩
    · injection h with h2
      subst h2
      exact ⟨rfl, rfl⟩

theorem fireTimer_cursor_fields (w w2 : World) (i : Nat) (h : fireTimer w i = Except.ok w2) :
    w2.config = w.config ∧ w2.cursorElement = w.cursorElement := by
  rw [fireTimer] at h
  split at h
  · injection h with h2
    subst h2
    exact ⟨rfl, rfl⟩
  · split at h
    · injection h with h2
      subst h2
      exact ⟨rfl, rfl⟩
    · obtain ⟨h1, h2⟩ := tickBody_cursor_fields _ _ h
      exact ⟨h1, h2⟩

theorem initCursor_config (w : World) (e : Nat) : (initCursor w e).config = w.config := by
  rw [initCursor]; split <;> rfl

theorem cursorInv_init (w : World) (p : PartialConfig) (e : Nat)
    (hres : w.resolve (mergeCfg defaultOptions p).selector = some e) :
    (init w p).config.cursor = true → (init w p).cursorElement.isSome = true := by
  rw [init, hres]
  show (initCursor (initAnim (initBase w p e) e) e).config.cursor = true →
      (initCursor (initAnim (initBase w p e) e) e).cursorElement.isSome = true
  rw [initCursor_config, initAnim_config, initBase_config]
  intro hcM
  rw [initCursor]
  split
  · rw [attachCursor_cursorElement]
    rfl
  · rename_i hguard
    rw [initAnim_config, initBase_config] at hguard
    exact absurd hcM hguard

theorem cursorInv_updateConfig (w w2 : World) (p : PartialConfig)
    (h : updateConfig w p = Except.ok w2)
    (hI : w.config.cursor = true → w.cursorElement.isSome = true) :
    w2.config.cursor = true → w2.cursorElement.isSome = true := by
  rw [updateConfig] at h
  split at h
  · split at h
    · exact Except.noConfusion h
    · rename_i w1 h1
      obtain ⟨hc1, hcur1⟩ := textStep_cursor_fields _ _ _ h1
      split at h
      · exact Except.noConfusion h
      · rename_i wb hb
        obtain ⟨hcsp, hcursp⟩ := speedStep_cursor_fields w1 p
        have hmerge : (speedStep w1 p).config = mergeCfg w.config p := by
          rw [hcsp, hc1]
        obtain ⟨hcb, hIb⟩ := cursorStep_cursorInv _ _ p hb
          (by
            intro hp hcT
            rw [hcursp, hcur1]
            apply hI
            rw [hmerge] at hcT
            rw [mergeCfg] at hcT
            rw [hp] at hcT
            exact hcT)
          (by
            intro b hp
            rw [hmerge, mergeCfg, hp]
            rfl)
        split at h
        · exact Except.noConfusion h
        · rename_i wc hc
          obtain ⟨hcc, hcurc⟩ := animationStep_cursor_fields _ _ _ hc
          obtain ⟨hcst, hcurst⟩ := cursorStyleStep_cursor_fields wb p
          split at h
          · exact Except.noConfusion h
          · rename_i wd hd
            obtain ⟨hcd, hcurd⟩ := colorStep_cursor_fields _ _ _ hd
            obtain ⟨hce, hcure⟩ := durationStep_cursor_fields _ _ _ h
            intro hcT
            rw [hcure, hcurd, hcurc, hcurst]
            apply hIb
            rw [hce, hcd, hcc, hcst] at hcT
            exact hcT
  · injection h with h2
    subst h2
    exact hI

/-- C7 (amended) — in every state reachable by sequences whose `init`
calls all resolve their selector, if `config.showCursor` is true then
the cursor handle is non-null.  (Only this direction survives: the
converse of the claimed "iff" fails because `destroy` never nulls
`cursorElement` — see the counterexample — and a failed `init` can
even break this direction by merging the default `cursor:true` without
creating a span, which is why failed inits are excluded.) -/
theorem c7_cursor_handle_of_resolved_inits (w : World) (h : ReachResolvedInit w)
    (hc : w.config.cursor = true) : w.cursorElement.isSome = true := by
  induction h with
  | base r => simp [mkClean] at hc
  | step_init w p e hr hres ih => exact cursorInv_init w p e hres hc
  | step_update w w2 p hr hok ih => exact cursorInv_updateConfig w w2 p hok ih hc
  | step_destroy w w2 hr hok ih =>
    obtain ⟨hcfg, hcur⟩ := destroy_cursor_fields w w2 hok
    rw [hcur]
    exact ih (by rw [hcfg] at hc; exact hc)
  | step_fire w w2 i hr hok ih =>
    obtain ⟨hcfg, hcur⟩ := fireTimer_cursor_fields w w2 i hok
    rw [hcur]
    exact ih (by rw [hcfg] at hc; exact hc)

/-- C7 (amended) — witness: after a successful default `init` (cursor
enabled), the handle is non-null. -/
theorem c7_cursor_handle_of_resolved_inits_witness :
    (runWorld resolveAll [Action.init {}]).cursorElement.isSome = true :=
  c7_cursor_handle_of_resolved_inits (runWorld resolveAll [Action.init {}])
    (by
      have h := ReachResolvedInit.step_init (mkClean resolveAll) {} 0
        (ReachResolvedInit.base resolveAll) rfl
      exact h)
    rfl

end TypifyV2

namespace TypifyV2

open Typify

/-- C3 (amended) — `init` with an unresolvable selector from an
**uninitialized** state: the error is reported on the host's diagnostic
channel, the animator stays uninitialized, no timer is armed, no visual
mutation is performed (element table, span table and cursor handle are
untouched), and subsequent `updateConfig` and `destroy` calls are
no-ops.  (From an initialized state the flag survives the failure — see
the counterexample — which is why the hypothesis `hw` is needed.) -/
theorem c3_failed_init_from_uninitialized (w : World) (p : PartialConfig)
    (hw : w.isInitialized = false)
    (hres : w.resolve (mergeCfg defaultOptions p).selector = none) :
    (init w p).isInitialized = false ∧
    (init w p).timers = w.timers ∧
    (init w p).elems = w.elems ∧
    (init w p).spanText = w.spanText ∧
    (init w p).cursorElement = w.cursorElement ∧
    (init w p).errorLog = w.errorLog ++
      ["Typify Error: No element found for selector " ++
        (mergeCfg defaultOptions p).selector] ∧
    (∀ q, updateConfig (init w p) q = Except.ok (init w p)) ∧
    destroy (init w p) = Except.ok (init w p) := by
  rw [init, hres]
  refine ⟨hw, rfl, rfl, rfl, rfl, rfl, ?_, ?_⟩
  · intro q
    rw [updateConfig]
    have hw2 : ({ w with
        config := mergeCfg defaultOptions p
        element := none
        errorLog := w.errorLog ++
          ["Typify Error: No element found for selector " ++
            (mergeCfg defaultOptions p).selector] } : World).isInitialized = false := hw
    rw [if_neg (by rw [hw2]; exact Bool.false_ne_true)]
  · rw [destroy]
    have hw2 : ({ w with
        config := mergeCfg defaultOptions p
        element := none
        errorLog := w.errorLog ++
          ["Typify Error: No element found for selector " ++
            (mergeCfg defaultOptions p).selector] } : World).isInitialized = false := hw
    rw [if_neg (by rw [hw2]; exact Bool.false_ne_true)]

/-- C3 (amended) — witness: from the pristine state, `init` with a
selector no node matches. -/
theorem c3_failed_init_from_uninitialized_witness :
    (init (mkClean resolveOnlyA) { selector := some "#b" }).isInitialized = false ∧
    (init (mkClean resolveOnlyA) { selector := some "#b" }).timers =
      (mkClean resolveOnlyA).timers ∧
    (init (mkClean resolveOnlyA) { selector := some "#b" }).elems =
      (mkClean resolveOnlyA).elems ∧
    (init (mkClean resolveOnlyA) { selector := some "#b" }).spanText =
      (mkClean resolveOnlyA).spanText ∧
    (init (mkClean resolveOnlyA) { selector := some "#b" }).cursorElement =
      (mkClean resolveOnlyA).cursorElement ∧
    (init (mkClean resolveOnlyA) { selector := some "#b" }).errorLog =
      (mkClean resolveOnlyA).errorLog ++
        ["Typify Error: No element found for selector " ++
          (mergeCfg defaultOptions { selector := some "#b" }).selector] ∧
    (∀ q, updateConfig (init (mkClean resolveOnlyA) { selector := some "#b" }) q =
      Except.ok (init (mkClean resolveOnlyA) { selector := some "#b" })) ∧
    destroy (init (mkClean resolveOnlyA) { selector := some "#b" }) =
      Except.ok (init (mkClean resolveOnlyA) { selector := some "#b" }) :=
  c3_failed_init_from_uninitialized (mkClean resolveOnlyA) { selector := some "#b" }
    rfl (by rfl)

/-- C6 (amended) — `updateConfig` with a non-zero `speed` (an exact
state equation): the config's speed is updated, the ticker registered in
`typingInterval` is cancelled and a fresh interval at the new period is
armed immediately; `currentIndex`, the text and the visual tree are
untouched, so no character is lost or duplicated and only the cadence of
future ticks changes. -/
theorem c6_speed_change_restarts_preserving_index (w : World) (s : Nat)
    (hin : w.isInitialized = true) (hs : s ≠ 0) :
    updateConfig w { speed := some s } = Except.ok
      { w with
          config := { w.config with speed := s }
          typingInterval := some w.nextTimerId
          timers := removeTimers w.timers w.typingInterval ++
            [{ id := w.nextTimerId, kind := TKind.tick, fire := w.now + s, period := s }]
          nextTimerId := w.nextTimerId + 1 } := by
  simp only [updateConfig, hin, if_true, textStep, speedStep, cursorStep, cursorStyleStep,
    animationStep, colorStep, durationStep, mergeCfg, startTyping, clearInterval, hs,
    Option.getD]
  simp [hs, startTyping, clearInterval, mergeCfg]

/-- C6 (amended) — witness: mid-reveal (one character revealed), change
speed from the default 100 to 50. -/
theorem c6_speed_change_restarts_preserving_index_witness :
    updateConfig (runWorld resolveAll [Action.init {}, Action.fire 0, Action.fire 1])
      { speed := some 50 } = Except.ok
      { runWorld resolveAll [Action.init {}, Action.fire 0, Action.fire 1] with
          config := { (runWorld resolveAll
            [Action.init {}, Action.fire 0, Action.fire 1]).config with speed := 50 }
          typingInterval := some (runWorld resolveAll
            [Action.init {}, Action.fire 0, Action.fire 1]).nextTimerId
          timers := removeTimers (runWorld resolveAll
              [Action.init {}, Action.fire 0, Action.fire 1]).timers
              (runWorld resolveAll
                [Action.init {}, Action.fire 0, Action.fire 1]).typingInterval ++
            [{ id := (runWorld resolveAll
                  [Action.init {}, Action.fire 0, Action.fire 1]).nextTimerId
               kind := TKind.tick
               fire := (runWorld resolveAll
                  [Action.init {}, Action.fire 0, Action.fire 1]).now + 50
               period := 50 }]
          nextTimerId := (runWorld resolveAll
            [Action.init {}, Action.fire 0, Action.fire 1]).nextTimerId + 1 } :=
  c6_speed_change_restarts_preserving_index
    (runWorld resolveAll [Action.init {}, Action.fire 0, Action.fire 1]) 50 rfl (by decide)

end TypifyV2

namespace TypifyV2

open Typify

theorem resetTyping_children (w wr : World) (e : Nat)
    (h : resetTyping w = Except.ok wr) (he : w.element = some e) :
    (w.config.cursor = false → (wr.elems e).children = []) ∧
    (∀ c, w.cursorElement = some c → w.config.cursor = true →
      (wr.elems e).children = [Node.span c]) := by
  rw [resetTyping] at h
  split at h
  · rename_i heq
    rw [he] at heq
    exact Option.noConfusion heq
  · rename_i j heq
    rw [he] at heq
    injection heq with heq
    subst heq
    split at h
    · rename_i hcur
      split at h
      · exact Except.noConfusion h
      · rename_i c hc
        injection h with h2
        subst h2
        constructor
        · intro hf
          rw [hf] at hcur
          exact Bool.noConfusion hcur
        · intro c2 hc2 _
          rw [hc] at hc2
          injection hc2 with hc2
          subst hc2
          rw [modifyElem_elems, setFn_same, resetPlain_children]
          rfl
    · rename_i hcur
      injection h with h2
      subst h2
      constructor
      · intro _
        exact resetPlain_children w e
      · intro c hc hT
        exact absurd hT hcur

/-- C5 (amended) — `updateConfig` with a changed **non-empty** text:
the reveal index is reset to 0, the session text becomes the new text,
a fresh start-delay timeout (at the merged delay, with the next timer
id) is armed, every ticker whose id `typingInterval` registers has been
cancelled (any armed ticker surviving in the queue is an old one with a
different id), and the visual content is cleared back to just the
cursor (when one is configured) or to nothing. -/
theorem c5_text_change_resets (w w2 : World) (t : List Char) (e : Nat)
    (hin : w.isInitialized = true) (he : w.element = some e)
    (ht0 : t ≠ []) (htne : t ≠ w.text)
    (h : updateConfig w { text := some t } = Except.ok w2) :
    w2.currentIndex = 0 ∧ w2.text = t ∧
    (∃ u ∈ w2.timers, u.kind = TKind.startCb ∧ u.fire = w.now + w.config.delay ∧
      u.id = w.nextTimerId) ∧
    (∀ u ∈ w2.timers, u.kind = TKind.tick → u ∈ w.timers ∧ some u.id ≠ w.typingInterval) ∧
    (w.config.cursor = false → (w2.elems e).children = []) ∧
    (∀ c, w.cursorElement = some c → w.config.cursor = true →
      (w2.elems e).children = [Node.span c]) := by
  rw [updateConfig, if_pos hin] at h
  split at h
  · exact Except.noConfusion h
  · rename_i w1 h1
    rw [textStep] at h1
    split at h1
    case h_2 =>
      rename_i heq
      simp at heq
    case h_1 =>
      rename_i t2 heq
      have ht2 : t = t2 := by simpa using heq
      subst ht2
      rw [if_pos (show t ≠ [] ∧ t ≠ ({ w with
        config := mergeCfg w.config { text := some t } } : World).text from ⟨ht0, htne⟩)] at h1
      split at h1
      · exact Except.noConfusion h1
      · rename_i wr hr
        injection h1 with h1
        subst h1
        injection h with h2
        subst h2
        obtain ⟨hcfg, -, hti, hidx, htxt, -, -, -, -, htm, hnid, -, hnow⟩ :=
          resetTyping_ok_fields _ _ hr
        obtain ⟨hch0, hch1⟩ := resetTyping_children _ _ e hr he
        refine ⟨?_, ?_, ?_, ?_, ?_, ?_⟩
        · show wr.currentIndex = 0
          exact hidx
        · show wr.text = t
          rw [htxt]
        · refine ⟨⟨wr.nextTimerId, TKind.startCb, wr.now + wr.config.delay, 0⟩,
            List.mem_append_right _ (List.mem_singleton.2 rfl), rfl, ?_, ?_⟩
          · show wr.now + wr.config.delay = w.now + w.config.delay
            rw [hnow, hcfg]
            rfl
          · show wr.nextTimerId = w.nextTimerId
            rw [hnid]
        · intro u hu hk
          rcases List.mem_append.1 hu with hl | hrr
          · have hl2 : u ∈ removeTimers wr.timers wr.typingInterval := hl
            rw [htm, hti] at hl2
            rcases hta : w.typingInterval with _ | j
            · rw [hta] at hl2
              exact ⟨hl2, by simp⟩
            · rw [hta] at hl2
              rw [removeTimers] at hl2
              rw [List.mem_filter] at hl2
              refine ⟨hl2.1, ?_⟩
              have : u.id ≠ j := by simpa using hl2.2
              simp [this]
          · rcases List.mem_singleton.1 hrr with rfl
            exact absurd hk (by simp)
        · intro hcf
          show ((scheduleStart (clearInterval wr wr.typingInterval)).elems e).children = []
          exact hch0 hcf
        · intro c hc hT
          show ((scheduleStart (clearInterval wr wr.typingInterval)).elems e).children =
            [Node.span c]
          exact hch1 c hc hT

/-- C5 (amended) — witness: mid-reveal of `"Hi"` (one character
revealed), change the text to `"Bye"`. -/
theorem c5_text_change_resets_witness :
    ((updateConfig (runWorld resolveAll
        [Action.init { text := some ['H', 'i'] }, Action.fire 0, Action.fire 1])
        { text := some ['B', 'y', 'e'] }).toOption.getD (mkClean resolveAll)).currentIndex
      = 0 ∧
    ((updateConfig (runWorld resolveAll
        [Action.init { text := some ['H', 'i'] }, Action.fire 0, Action.fire 1])
        { text := some ['B', 'y', 'e'] }).toOption.getD (mkClean resolveAll)).text
      = ['B', 'y', 'e'] := by
  have h := c5_text_change_resets
    (runWorld resolveAll [Action.init { text := some ['H', 'i'] }, Action.fire 0, Action.fire 1])
    ((updateConfig (runWorld resolveAll
        [Action.init { text := some ['H', 'i'] }, Action.fire 0, Action.fire 1])
        { text := some ['B', 'y', 'e'] }).toOption.getD (mkClean resolveAll))
    ['B', 'y', 'e'] 0 rfl rfl (by decide) (by decide) rfl
  exact ⟨h.1, h.2.1⟩

end TypifyV2

namespace TypifyV2

open Typify

theorem quietInit (r : String → Option Nat) (p : PartialConfig) (e : Nat)
    (hres : r (cfgOf p).selector = some e) :
    init (mkClean r) p = quietStart r p e := by
  rw [init]
  rw [show (mkClean r).resolve = r from rfl]
  rw [show mergeCfg defaultOptions p = cfgOf p from rfl, hres]
  by_cases hA : (mergeCfg defaultOptions p).animation = "none" <;>
    by_cases hC : (mergeCfg defaultOptions p).cursor <;>
      simp [initBase, initAnim, initCursor, attachCursor, scheduleStart, modifyElem,
        mkClean, setFn_setFn, setFn_same, hA, hC, quietStart, quietElem, cfgOf,
        emptyElem, addClass]

end TypifyV2

namespace TypifyV2

open Typify

theorem insertBefore_textRun (xs : List Char) (i : Nat) (m : Node) :
    insertBeforeNode (Node.span i) m (xs.map Node.text ++ [Node.span i]) =
      some (xs.map Node.text ++ (m :: [Node.span i])) := by
  induction xs with
  | nil => simp [insertBeforeNode]
  | cons x xs ih => simp [insertBeforeNode, ih]

theorem take_concat_getD (xs : List Char) (k : Nat) (h : k < xs.length) :
    xs.take k ++ [xs.getD k ' '] = xs.take (k + 1) := by
  induction xs generalizing k with
  | nil => simp at h
  | cons x xs ih =>
    cases k with
    | zero => simp
    | succ k2 =>
      rw [List.length_cons, Nat.succ_lt_succ_iff] at h
      simp only [List.take_succ_cons, List.getD_cons_succ, List.cons_append]
      rw [ih k2 h]

theorem quietFire0 (r : String → Option Nat) (p : PartialConfig) (e : Nat) :
    fireTimer (quietStart r p e) 0 = Except.ok (quietTick r p e 0) := by
  simp [fireTimer, findTimer, quietStart, quietTick, startTyping, cfgOf]

end TypifyV2

namespace TypifyV2

open Typify

theorem quietFireStep (r : String → Option Nat) (p : PartialConfig) (e : Nat) (k : Nat)
    (hk : k < (cfgOf p).text.length) :
    fireTimer (quietTick r p e k) 1 = Except.ok (quietTick r p e (k + 1)) := by
  have hch : ((cfgOf p).text.take (k + 1)).map Node.text =
      ((cfgOf p).text.take k).map Node.text ++ [Node.text ((cfgOf p).text.getD k ' ')] := by
    rw [← take_concat_getD _ k hk, List.map_append]
    simp
  have har : (cfgOf p).delay + (k + 1) * (cfgOf p).speed + (cfgOf p).speed =
      (cfgOf p).delay + (k + 2) * (cfgOf p).speed := by ring
  have hins2 : insertBeforeNode (Node.span 0) (Node.text ((cfgOf p).text[k]))
      (List.take k (List.map Node.text (cfgOf p).text) ++ [Node.span 0]) =
      some (List.take k (List.map Node.text (cfgOf p).text) ++
        [Node.text ((cfgOf p).text[k]), Node.span 0]) := by
    have h2 := insertBefore_textRun ((cfgOf p).text.take k) 0 (Node.text ((cfgOf p).text[k]))
    simpa using h2
  by_cases hC : (cfgOf p).cursor <;>
    simp [fireTimer, findTimer, quietTick, quietStart, tickBody, hk, hC, quietElem,
      modifyElem, setFn_setFn, setFn_same, insertBefore_textRun, hins2, hch, har]

end TypifyV2

namespace TypifyV2

open Typify

theorem quietFireLast (r : String → Option Nat) (p : PartialConfig) (e : Nat)
    (hloop : (cfgOf p).loop = false) :
    fireTimer (quietTick r p e (cfgOf p).text.length) 1 = Except.ok (quietEnd r p e) := by
  simp [fireTimer, findTimer, quietTick, quietStart, tickBody, quietEnd, clearInterval,
    removeTimers, hloop]

end TypifyV2

namespace TypifyV2

open Typify

theorem runUpTo_nil (T fuel : Nat) (w : World) (h : w.timers = []) :
    runUpTo T fuel w = Except.ok w := by
  cases fuel with
  | zero => rfl
  | succ f => rw [runUpTo, h]; rfl

theorem runUpTo_stay (T fuel : Nat) (w : World) (t : Timer)
    (hm : minFire w.timers = some t) (hT : T < t.fire) :
    runUpTo T fuel w = Except.ok w := by
  cases fuel with
  | zero => rfl
  | succ f =>
    simp only [runUpTo, hm]
    rw [if_neg (by omega)]

theorem runUpTo_step (T fuel : Nat) (w w2 : World) (t : Timer)
    (hm : minFire w.timers = some t) (hT : t.fire ≤ T)
    (hf : fireTimer w t.id = Except.ok w2) :
    runUpTo T (fuel + 1) w = runUpTo T fuel w2 := by
  simp only [runUpTo, hm]
  rw [if_pos hT, hf]

theorem quietRunMiddle (r : String → Option Nat) (p : PartialConfig) (e : Nat)
    (hs : 1 ≤ (cfgOf p).speed) :
    ∀ m j T fuel, j + m ≤ (cfgOf p).text.length →
      (cfgOf p).delay + (j + m) * (cfgOf p).speed ≤ T →
      T < (cfgOf p).delay + (j + m + 1) * (cfgOf p).speed →
      m ≤ fuel →
      runUpTo T fuel (quietTick r p e j) = Except.ok (quietTick r p e (j + m)) := by
  intro m
  induction m with
  | zero =>
    intro j T fuel hjm hT1 hT2 hfuel
    exact runUpTo_stay T fuel _ _ rfl hT2
  | succ m ih =>
    intro j T fuel hjm hT1 hT2 hfuel
    cases fuel with
    | zero => omega
    | succ f =>
      have hj : j < (cfgOf p).text.length := by omega
      have hTf : (cfgOf p).delay + (j + 1) * (cfgOf p).speed ≤ T := by
        calc (cfgOf p).delay + (j + 1) * (cfgOf p).speed
            ≤ (cfgOf p).delay + (j + (m + 1)) * (cfgOf p).speed :=
              Nat.add_le_add_left (Nat.mul_le_mul_right _ (by omega)) _
          _ ≤ T := hT1
      rw [runUpTo_step T f (quietTick r p e j) _ ⟨1, TKind.tick,
        (cfgOf p).delay + (j + 1) * (cfgOf p).speed, (cfgOf p).speed⟩ rfl hTf
        (quietFireStep r p e j hj)]
      rw [show j + (m + 1) = (j + 1) + m by omega]
      refine ih (j + 1) T f (by omega) ?_ ?_ (by omega)
      · rw [show (j + 1) + m = j + (m + 1) by omega]
        exact hT1
      · rw [show (j + 1) + m + 1 = j + (m + 1) + 1 by omega]
        exact hT2

theorem quietRunEnd (r : String → Option Nat) (p : PartialConfig) (e : Nat)
    (hloop : (cfgOf p).loop = false) :
    ∀ m j T fuel, j + m = (cfgOf p).text.length →
      (cfgOf p).delay + ((cfgOf p).text.length + 1) * (cfgOf p).speed ≤ T →
      m + 2 ≤ fuel →
      runUpTo T fuel (quietTick r p e j) = Except.ok (quietEnd r p e) := by
  intro m
  induction m with
  | zero =>
    intro j T fuel hjm hT hfuel
    cases fuel with
    | zero => omega
    | succ f =>
      have hj : j = (cfgOf p).text.length := by omega
      subst hj
      rw [runUpTo_step T f (quietTick r p e (cfgOf p).text.length) _ ⟨1, TKind.tick,
        (cfgOf p).delay + ((cfgOf p).text.length + 1) * (cfgOf p).speed, (cfgOf p).speed⟩
        rfl hT (quietFireLast r p e hloop)]
      exact runUpTo_nil T f _ rfl
  | succ m ih =>
    intro j T fuel hjm hT hfuel
    cases fuel with
    | zero => omega
    | succ f =>
      have hj : j < (cfgOf p).text.length := by omega
      have hTf : (cfgOf p).delay + (j + 1) * (cfgOf p).speed ≤ T := by
        calc (cfgOf p).delay + (j + 1) * (cfgOf p).speed
            ≤ (cfgOf p).delay + ((cfgOf p).text.length + 1) * (cfgOf p).speed :=
              Nat.add_le_add_left (Nat.mul_le_mul_right _ (by omega)) _
          _ ≤ T := hT
      rw [runUpTo_step T f (quietTick r p e j) _ ⟨1, TKind.tick,
        (cfgOf p).delay + (j + 1) * (cfgOf p).speed, (cfgOf p).speed⟩ rfl hTf
        (quietFireStep r p e j hj)]
      exact ih (j + 1) T f (by omega) hT (by omega)

end TypifyV2

namespace TypifyV2

open Typify

/-- C1 — full reveal of a non-looping session started by `init` on the
pristine state, with no intervening `updateConfig` or `destroy` calls:
(1) for every `k ≤ length(text)`, once `startDelayMs + k·stepIntervalMs`
has elapsed the target's children are exactly the first `k` characters
of `config.text` as text nodes, in left-to-right order, followed by the
cursor span when `showCursor` is on (so at `k = length(text)` the
revealed content equals `config.text` exactly, with the cursor after the
last character, one character having been appended per tick), the reveal
index is `k` and the ticker is still armed; (2) from
`startDelayMs + (length(text)+1)·stepIntervalMs` on — the next tick
after the last reveal — the ticker has been cancelled and the content
never changes again. -/
theorem c1_full_reveal (r : String → Option Nat) (p : PartialConfig) (e : Nat)
    (hres : r (cfgOf p).selector = some e)
    (hloop : (cfgOf p).loop = false)
    (hs : 1 ≤ (cfgOf p).speed) :
    (∀ k, k ≤ (cfgOf p).text.length →
      (runUpTo ((cfgOf p).delay + k * (cfgOf p).speed) (k + 1) (init (mkClean r) p)).map
        (fun w => ((w.elems e).children, w.currentIndex, ticksCount w)) =
      Except.ok (((cfgOf p).text.take k).map Node.text ++
        (if (cfgOf p).cursor then [Node.span 0] else []), k, 1)) ∧
    (∀ T, (cfgOf p).delay + ((cfgOf p).text.length + 1) * (cfgOf p).speed ≤ T →
      (runUpTo T ((cfgOf p).text.length + 3) (init (mkClean r) p)).map
        (fun w => ((w.elems e).children, w.currentIndex, ticksCount w)) =
      Except.ok ((cfgOf p).text.map Node.text ++
        (if (cfgOf p).cursor then [Node.span 0] else []),
        (cfgOf p).text.length, 0)) := by
  rw [quietInit r p e hres]
  constructor
  · intro k hk
    have hrun : runUpTo ((cfgOf p).delay + k * (cfgOf p).speed) (k + 1) (quietStart r p e) =
        Except.ok (quietTick r p e k) := by
      rw [runUpTo_step ((cfgOf p).delay + k * (cfgOf p).speed) k (quietStart r p e) _
        ⟨0, TKind.startCb, (cfgOf p).delay, 0⟩ rfl (Nat.le_add_right _ _)
        (quietFire0 r p e)]
      have h0 := quietRunMiddle r p e hs k 0 ((cfgOf p).delay + k * (cfgOf p).speed) k
        (by omega) ?_ ?_ (by omega)
      · rw [h0]
        rw [show 0 + k = k by omega]
      · rw [show 0 + k = k by omega]
      · rw [show 0 + k = k by omega]
        have : k * (cfgOf p).speed < (k + 1) * (cfgOf p).speed :=
          Nat.mul_lt_mul_of_lt_of_le (by omega) (le_refl _) (by omega)
        omega
    rw [hrun]
    simp [quietTick, quietStart, quietElem, setFn_same, ticksCount, Except.map]
  · intro T hT
    have hrun : runUpTo T ((cfgOf p).text.length + 3) (quietStart r p e) =
        Except.ok (quietEnd r p e) := by
      rw [show (cfgOf p).text.length + 3 = ((cfgOf p).text.length + 2) + 1 by omega]
      rw [runUpTo_step T ((cfgOf p).text.length + 2) (quietStart r p e) _
        ⟨0, TKind.startCb, (cfgOf p).delay, 0⟩ rfl
        (by show (cfgOf p).delay ≤ T; omega) (quietFire0 r p e)]
      exact quietRunEnd r p e hloop (cfgOf p).text.length 0 T ((cfgOf p).text.length + 2)
        (by omega) hT (by omega)
    rw [hrun]
    simp [quietEnd, quietTick, quietStart, quietElem, setFn_same, ticksCount,
      List.take_length, Except.map]

/-- C1 — witness: `init({text:"Hi", speed:10, delay:7})` on a document
in which the default selector resolves; at `7 + 2·10` elapsed the
content is `Hi` followed by the cursor with the ticker still armed, and
at `T = 100 ≥ 7 + 3·10` the ticker is cancelled with the content
unchanged. -/
theorem c1_full_reveal_witness :
    ((runUpTo (7 + 2 * 10) (2 + 1) (init (mkClean resolveAll) c1Opts)).map
      (fun w => ((w.elems 0).children, w.currentIndex, ticksCount w)) =
    Except.ok (((cfgOf c1Opts).text.take 2).map Node.text ++
      (if (cfgOf c1Opts).cursor then [Node.span 0] else []), 2, 1)) ∧
    ((runUpTo 100 (2 + 3) (init (mkClean resolveAll) c1Opts)).map
      (fun w => ((w.elems 0).children, w.currentIndex, ticksCount w)) =
    Except.ok ((cfgOf c1Opts).text.map Node.text ++
      (if (cfgOf c1Opts).cursor then [Node.span 0] else []), 2, 0)) :=
  ⟨(c1_full_reveal resolveAll c1Opts 0 rfl rfl (by decide)).1 2 (by decide),
   (c1_full_reveal resolveAll c1Opts 0 rfl rfl (by decide)).2 100 (by decide)⟩

end TypifyV2

namespace TypifyV1

open Typify

theorem proj_setFn (f : Nat → TypifyV2.Elem) (e : Nat) (v : TypifyV2.Elem) :
    (fun i => projE (setFn f e v i)) = setFn (fun i => projE (f i)) e (projE v) := by
  funext i
  rw [setFn, setFn]
  split <;> rfl

theorem sim_clearInterval (w : TypifyV2.World) (oi : Option Nat) :
    projW (TypifyV2.clearInterval w oi) = clearInterval (projW w) oi := rfl

theorem sim_scheduleStart (w : TypifyV2.World) :
    projW (TypifyV2.scheduleStart w) = scheduleStart (projW w) := rfl

theorem sim_startTyping (w : TypifyV2.World) :
    projW (TypifyV2.startTyping w) = startTyping (projW w) := rfl

theorem sim_attachCursor (w : TypifyV2.World) (e : Nat) :
    projW (TypifyV2.attachCursor w e) = attachCursor (projW w) e := by
  rw [TypifyV2.attachCursor, attachCursor, TypifyV2.modifyElem, modifyElem]
  simp only [projW, proj_setFn]
  rfl

theorem proj_modifyElem_keep (w : TypifyV2.World) (e : Nat) (g : TypifyV2.Elem → TypifyV2.Elem)
    (hg : ∀ el, (g el).children = el.children) :
    projW (TypifyV2.modifyElem w e g) = projW w := by
  rw [TypifyV2.modifyElem]
  simp only [projW, proj_setFn]
  have hv : projE (g (w.elems e)) = projE (w.elems e) := by
    rw [projE, projE, hg]
  rw [hv]
  have hfn : setFn (fun i => projE (w.elems i)) e (projE (w.elems e)) =
      (fun i => projE (w.elems i)) := by
    funext i
    rw [setFn]
    split
    · rename_i hi
      subst hi
      rfl
    · rfl
  rw [hfn]

theorem proj_modifyElem_children (w : TypifyV2.World) (e : Nat) (l : List Node) :
    projW (TypifyV2.modifyElem w e (fun el => { el with children := l })) =
      modifyElem (projW w) e (fun el => { el with children := l }) := by
  rw [TypifyV2.modifyElem, modifyElem]
  simp only [projW, proj_setFn]
  rfl

theorem proj_modifyElem_append (w : TypifyV2.World) (e : Nat) (n : Node) :
    projW (TypifyV2.modifyElem w e (fun el => { el with children := el.children ++ [n] })) =
      modifyElem (projW w) e (fun el => { el with children := el.children ++ [n] }) := by
  rw [TypifyV2.modifyElem, modifyElem]
  simp only [projW, proj_setFn]
  rfl

end TypifyV1

namespace TypifyV1

open Typify

theorem sim_resetPlain (w : TypifyV2.World) (e : Nat) (hA : w.config.animation = "none") :
    projW (TypifyV2.resetPlain w e) = resetPlain (projW w) e := by
  rw [TypifyV2.resetPlain, if_neg (by simp [hA])]
  rw [resetPlain]
  exact proj_modifyElem_children { w with currentIndex := 0 } e []

theorem sim_resetTyping (w : TypifyV2.World) (hA : w.config.animation = "none") :
    resetTyping (projW w) = (TypifyV2.resetTyping w).map projW := by
  rw [resetTyping, TypifyV2.resetTyping]
  have hel : (projW w).element = w.element := rfl
  have hcu : (projW w).config.cursor = w.config.cursor := rfl
  have hce : (projW w).cursorElement = w.cursorElement := rfl
  rw [hel, hcu, hce]
  rcases he : w.element with _ | e
  · rfl
  · dsimp only
    by_cases hc : w.config.cursor
    · rw [if_pos hc, if_pos hc]
      rcases hcel : w.cursorElement with _ | c
      · rfl
      · show Except.ok _ = Except.ok _
        refine congrArg Except.ok ?_
        rw [proj_modifyElem_append (TypifyV2.resetPlain w e) e (Node.span c),
          sim_resetPlain w e hA]
    · rw [if_neg hc, if_neg hc]
      show Except.ok _ = Except.ok _
      exact congrArg Except.ok (sim_resetPlain w e hA).symm

end TypifyV1

namespace TypifyV1

open Typify

theorem projW_idx (x : TypifyV2.World) (n : Nat) :
    projW { x with currentIndex := n } = { projW x with currentIndex := n } := rfl

theorem projW_initTrue (x : TypifyV2.World) :
    projW { x with isInitialized := true } = { projW x with isInitialized := true } := rfl

theorem projW_deinit (x : TypifyV2.World) (s : String) :
    projW { x with animationClass := s, isInitialized := false } =
      { projW x with isInitialized := false } := rfl

theorem projW_textIdx (x : TypifyV2.World) (t : List Char) :
    projW { x with text := t, currentIndex := 0 } =
      { projW x with text := t, currentIndex := 0 } := rfl

theorem sim_textStep (w : TypifyV2.World) (p : PartialConfig)
    (hA : w.config.animation = "none") :
    textStep (projW w) p = (TypifyV2.textStep w (liftP p)).map projW := by
  rw [textStep, TypifyV2.textStep]
  have hlt : (liftP p).text = p.text := rfl
  rw [hlt]
  rcases ht : p.text with _ | t
  · rfl
  · dsimp only
    have htx : (projW w).text = w.text := rfl
    rw [htx]
    by_cases hcond : t ≠ [] ∧ t ≠ w.text
    · rw [if_pos hcond, if_pos hcond]
      have hw : ({ projW w with text := t } : World) = projW { w with text := t } := rfl
      rw [hw, sim_resetTyping { w with text := t } hA]
      rcases hr : TypifyV2.resetTyping { w with text := t } with er | w2
      · rfl
      · dsimp only [Except.map]
        rw [sim_scheduleStart, sim_clearInterval]
        rfl
    · rw [if_neg hcond, if_neg hcond]; rfl

theorem sim_speedStep (w : TypifyV2.World) (p : PartialConfig) :
    speedStep (projW w) p = projW (TypifyV2.speedStep w (liftP p)) := by
  rw [speedStep, TypifyV2.speedStep]
  have hls : (liftP p).speed = p.speed := rfl
  rw [hls]
  rcases hs : p.speed with _ | s
  · rfl
  · dsimp only
    by_cases h0 : s ≠ 0
    · rw [if_pos h0, if_pos h0]; rfl
    · rw [if_neg h0, if_neg h0]

end TypifyV1

namespace TypifyV1

open Typify

theorem sim_cursorStep (w : TypifyV2.World) (p : PartialConfig) :
    cursorStep (projW w) p = (TypifyV2.cursorStep w (liftP p)).map projW := by
  rw [cursorStep, TypifyV2.cursorStep]
  have hlc : (liftP p).cursor = p.cursor := rfl
  rw [hlc]
  have hce : (projW w).cursorElement = w.cursorElement := rfl
  have hel : (projW w).element = w.element := rfl
  rw [hce, hel]
  rcases hb : p.cursor with _ | b
  · rfl
  · dsimp only
    cases b
    · rw [if_neg (by decide), if_neg (by decide)]
      rcases hcel : w.cursorElement with _ | c
      · rfl
      · dsimp only
        rcases hel2 : w.element with _ | e
        · rfl
        · dsimp only
          have hch : ((projW w).elems e).children = (w.elems e).children := rfl
          rw [hch]
          rcases hrm : removeFirstNode (Node.span c) ((w.elems e).children) with _ | l
          · rfl
          · dsimp only
            show Except.ok _ = Except.ok _
            refine congrArg Except.ok ?_
            rw [← proj_modifyElem_children w e l]
            rfl
    · rw [if_pos rfl, if_pos rfl]
      rcases hcel : w.cursorElement with _ | c
      · dsimp only
        rcases hel2 : w.element with _ | e
        · rfl
        · dsimp only
          show Except.ok _ = Except.ok _
          exact congrArg Except.ok (sim_attachCursor w e).symm
      · rfl

theorem sim_cursorStyleStep (w : TypifyV2.World) (p : PartialConfig)
    (hcs : ∀ cs, p.cursorStyle = some cs → w.config.cursorStyle = cs) :
    cursorStyleStep (projW w) p = projW (TypifyV2.cursorStyleStep w (liftP p)) := by
  rw [cursorStyleStep, TypifyV2.cursorStyleStep]
  have hl : (liftP p).cursorStyle = p.cursorStyle := rfl
  rw [hl]
  have hce : (projW w).cursorElement = w.cursorElement := rfl
  rw [hce]
  rcases hc : p.cursorStyle with _ | cs
  · rfl
  · dsimp only
    by_cases h0 : cs ≠ ""
    · rw [if_pos h0, if_pos h0]
      rcases hcel : w.cursorElement with _ | c
      · rfl
      · dsimp only
        rw [hcs cs hc]
        rfl
    · rw [if_neg h0, if_neg h0]

end TypifyV1

namespace TypifyV1

open Typify

theorem sim_destroy (w : TypifyV2.World) :
    destroy (projW w) = (TypifyV2.destroy w).map projW := by
  rw [destroy, TypifyV2.destroy]
  have hi : (projW w).isInitialized = w.isInitialized := rfl
  have hel : (projW w).element = w.element := rfl
  rw [hi, hel]
  by_cases h : w.isInitialized = true
  · rw [if_pos h, if_pos h]
    rcases he : w.element with _ | e
    · rfl
    · dsimp only
      show Except.ok _ = Except.ok _
      refine congrArg Except.ok ?_
      rw [TypifyV2.destroyBody, projW_deinit,
        proj_modifyElem_keep
          (TypifyV2.modifyElem (TypifyV2.clearInterval w w.typingInterval) e
            (fun el => { el with children := [] }))
          e (fun el => { el with classes := removeClass el.classes w.animationClass })
          (fun el => rfl),
        proj_modifyElem_children, sim_clearInterval]
      rfl
  · rw [if_neg h, if_neg h]; rfl

theorem sim_tickBody (w : TypifyV2.World) (hA : w.config.animation = "none") :
    tickBody (projW w) = (TypifyV2.tickBody w).map projW := by
  rw [tickBody, TypifyV2.tickBody]
  by_cases hlt : w.currentIndex < w.text.length
  · rw [if_pos (show (projW w).currentIndex < (projW w).text.length from hlt), if_pos hlt]
    rcases he : w.element with _ | e
    · rw [show (projW w).element = none from he]
      rfl
    · rw [show (projW w).element = some e from he]
      dsimp only
      rcases hc : w.cursorElement with _ | cid
      · rw [show (projW w).cursorElement = none from hc]
        dsimp only
        show Except.ok _ = Except.ok _
        refine congrArg Except.ok ?_
        rw [show ((projW w).text.getD (projW w).currentIndex ' ') =
          (w.text.getD w.currentIndex ' ') from rfl]
        rw [projW_idx (TypifyV2.modifyElem w e (fun el =>
            { el with children := el.children ++ [Node.text (w.text.getD w.currentIndex ' ')] }))
          (w.currentIndex + 1), proj_modifyElem_append]
        rfl
      · rw [show (projW w).cursorElement = some cid from hc]
        dsimp only
        rw [show ((projW w).elems e).children = (w.elems e).children from rfl,
          show ((projW w).text.getD (projW w).currentIndex ' ') =
            (w.text.getD w.currentIndex ' ') from rfl]
        rcases hins : insertBeforeNode (Node.span cid)
            (Node.text (w.text.getD w.currentIndex ' ')) ((w.elems e).children) with _ | l
        · rfl
        · dsimp only
          show Except.ok _ = Except.ok _
          refine congrArg Except.ok ?_
          rw [projW_idx (TypifyV2.modifyElem w e (fun el => { el with children := l }))
            (w.currentIndex + 1), proj_modifyElem_children]
          rfl
  · rw [if_neg (show ¬((projW w).currentIndex < (projW w).text.length) from hlt), if_neg hlt]
    by_cases hlp : w.config.loop = true
    · rw [if_pos (show (projW w).config.loop = true from hlp), if_pos hlp]
      rw [show (projW w).typingInterval = w.typingInterval from rfl]
      have hcl : clearInterval (projW w) w.typingInterval =
          projW (TypifyV2.clearInterval w w.typingInterval) :=
        (sim_clearInterval w w.typingInterval).symm
      rw [hcl, sim_resetTyping (TypifyV2.clearInterval w w.typingInterval) hA]
      rcases hr : TypifyV2.resetTyping (TypifyV2.clearInterval w w.typingInterval) with er | w2
      · rfl
      · dsimp only [Except.map]
        rw [sim_scheduleStart]
    · rw [if_neg (show ¬((projW w).config.loop = true) from hlp), if_neg hlp]
      show Except.ok _ = Except.ok _
      refine congrArg Except.ok ?_
      rw [show (projW w).typingInterval = w.typingInterval from rfl]
      exact sim_clearInterval w w.typingInterval

theorem sim_fireTimer (w : TypifyV2.World) (i : Nat) (hA : w.config.animation = "none") :
    fireTimer (projW w) i = (TypifyV2.fireTimer w i).map projW := by
  rw [fireTimer, TypifyV2.fireTimer]
  have ht : (projW w).timers = w.timers := rfl
  rw [ht]
  rcases hf : findTimer w.timers i with _ | t
  · rfl
  · dsimp only
    rcases t with ⟨tid, tk, tf, tp⟩
    rcases tk with _ | _
    · rfl
    · dsimp only
      exact sim_tickBody { w with now := tf, timers := w.timers.map (fun u => if u.id = i then { u with fire := u.fire + u.period } else u) } hA

end TypifyV1

namespace TypifyV1

open Typify

theorem sim_initBase (w : TypifyV2.World) (p : PartialConfig) (e : Nat) :
    projW (TypifyV2.initBase w (liftP p) e) = initBase (projW w) p e := by
  rw [TypifyV2.initBase, initBase, projW_textIdx, proj_modifyElem_children,
    proj_modifyElem_keep { w with config := TypifyV2.mergeCfg TypifyV2.defaultOptions (liftP p), element := some e }
      e (fun el => { el with color := (TypifyV2.mergeCfg TypifyV2.defaultOptions (liftP p)).color })
      (fun el => rfl)]
  rfl

theorem sim_initAnim_none (w : TypifyV2.World) (p : PartialConfig) (e : Nat) :
    TypifyV2.initAnim (TypifyV2.initBase w (liftP p) e) e = TypifyV2.initBase w (liftP p) e := by
  rw [TypifyV2.initAnim, if_neg (fun h => h rfl)]

theorem sim_init (w : TypifyV2.World) (p : PartialConfig) :
    init (projW w) p = projW (TypifyV2.init w (liftP p)) := by
  rw [init, TypifyV2.init]
  rcases hr : w.resolve ((TypifyV2.mergeCfg TypifyV2.defaultOptions (liftP p)).selector) with _ | e
  · rw [show (projW w).resolve (mergeCfg defaultOptions p).selector = none from hr]
    rfl
  · rw [show (projW w).resolve (mergeCfg defaultOptions p).selector = some e from hr]
    dsimp only
    rw [sim_initAnim_none, projW_initTrue, sim_scheduleStart]
    have hic : projW (TypifyV2.initCursor (TypifyV2.initBase w (liftP p) e) e) =
        initCursor (initBase (projW w) p e) e := by
      rw [TypifyV2.initCursor, initCursor]
      by_cases hcu : (TypifyV2.initBase w (liftP p) e).config.cursor = true
      · rw [if_pos hcu, if_pos (show (initBase (projW w) p e).config.cursor = true from hcu)]
        rw [sim_attachCursor, sim_initBase]
      · rw [if_neg hcu, if_neg (show ¬(initBase (projW w) p e).config.cursor = true from hcu)]
        exact sim_initBase w p e
    rw [hic]

end TypifyV1

namespace TypifyV1

open Typify

theorem animationStepLift (p : PartialConfig) (x : TypifyV2.World) :
    TypifyV2.animationStep x (liftP p) = Except.ok x := rfl

theorem colorStepLift (p : PartialConfig) (x : TypifyV2.World) :
    TypifyV2.colorStep x (liftP p) = Except.ok x := rfl

theorem durationStepLift (p : PartialConfig) (x : TypifyV2.World) :
    TypifyV2.durationStep x (liftP p) = Except.ok x := rfl

theorem cursorStepConfigV2 (w w2 : TypifyV2.World) (p : TypifyV2.PartialConfig)
    (h : TypifyV2.cursorStep w p = Except.ok w2) : w2.config = w.config := by
  rw [TypifyV2.cursorStep] at h
  repeat' split at h
  all_goals first
    | exact Except.noConfusion h
    | (injection h with h2; subst h2; rfl)

end TypifyV1

namespace TypifyV1

open Typify

theorem sim_updateConfig (w : TypifyV2.World) (p : PartialConfig)
    (hA : w.config.animation = "none") :
    updateConfig (projW w) p = (TypifyV2.updateConfig w (liftP p)).map projW := by
  rw [updateConfig, TypifyV2.updateConfig]
  by_cases hinit : w.isInitialized = true
  case neg =>
    rw [if_neg (show ¬(projW w).isInitialized = true from hinit), if_neg hinit]
    rfl
  case pos =>
  rw [if_pos (show (projW w).isInitialized = true from hinit), if_pos hinit]
  have hmw : ({ projW w with config := mergeCfg (projW w).config p } : World) =
      projW { w with config := TypifyV2.mergeCfg w.config (liftP p) } := rfl
  rw [hmw]
  have hA1 : ({ w with config := TypifyV2.mergeCfg w.config (liftP p) } : TypifyV2.World).config.animation = "none" := hA
  rw [sim_textStep { w with config := TypifyV2.mergeCfg w.config (liftP p) } p hA1]
  rcases h1 : TypifyV2.textStep { w with config := TypifyV2.mergeCfg w.config (liftP p) } (liftP p) with er | w1
  · rfl
  · dsimp only [Except.map]
    rw [sim_speedStep w1 p, sim_cursorStep (TypifyV2.speedStep w1 (liftP p)) p]
    rcases h2 : TypifyV2.cursorStep (TypifyV2.speedStep w1 (liftP p)) (liftP p) with er | w2
    · rfl
    · dsimp only [Except.map]
      rw [animationStepLift p (TypifyV2.cursorStyleStep w2 (liftP p))]
      dsimp only
      rw [colorStepLift p (TypifyV2.cursorStyleStep w2 (liftP p))]
      dsimp only
      rw [durationStepLift p (TypifyV2.cursorStyleStep w2 (liftP p))]
      dsimp only [Except.map]
      refine congrArg Except.ok ?_
      refine sim_cursorStyleStep w2 p ?_
      intro cs hcs
      have hc1 : w1.config =
          ({ w with config := TypifyV2.mergeCfg w.config (liftP p) } : TypifyV2.World).config :=
        (TypifyV2.textStep_cursor_fields _ _ _ h1).1
      have hc2 : (TypifyV2.speedStep w1 (liftP p)).config = w1.config :=
        (TypifyV2.speedStep_cursor_fields w1 (liftP p)).1
      have hc3 : w2.config = (TypifyV2.speedStep w1 (liftP p)).config :=
        cursorStepConfigV2 _ _ _ h2
      rw [hc3, hc2, hc1]
      show (TypifyV2.mergeCfg w.config (liftP p)).cursorStyle = cs
      rw [show (TypifyV2.mergeCfg w.config (liftP p)).cursorStyle =
        p.cursorStyle.getD w.config.cursorStyle from rfl, hcs]
      rfl

end TypifyV1

namespace TypifyV1

open Typify

theorem updateAnimV2 (w w2 : TypifyV2.World) (p : PartialConfig)
    (hx : TypifyV2.updateConfig w (liftP p) = Except.ok w2)
    (hA : w.config.animation = "none") : w2.config.animation = "none" := by
  rw [TypifyV2.updateConfig] at hx
  split at hx
  · rcases h1 : TypifyV2.textStep { w with config := TypifyV2.mergeCfg w.config (liftP p) } (liftP p) with er | w1
    · rw [h1] at hx
      exact Except.noConfusion hx
    · rw [h1] at hx
      dsimp only at hx
      rcases h2 : TypifyV2.cursorStep (TypifyV2.speedStep w1 (liftP p)) (liftP p) with er | wc
      · rw [h2] at hx
        exact Except.noConfusion hx
      · rw [h2] at hx
        dsimp only at hx
        rw [animationStepLift p (TypifyV2.cursorStyleStep wc (liftP p))] at hx
        dsimp only at hx
        rw [colorStepLift p (TypifyV2.cursorStyleStep wc (liftP p))] at hx
        dsimp only at hx
        rw [durationStepLift p (TypifyV2.cursorStyleStep wc (liftP p))] at hx
        injection hx with h3
        subst h3
        have e1 : (TypifyV2.cursorStyleStep wc (liftP p)).config = wc.config :=
          (TypifyV2.cursorStyleStep_cursor_fields wc (liftP p)).1
        have e2 : wc.config = (TypifyV2.speedStep w1 (liftP p)).config :=
          cursorStepConfigV2 _ _ _ h2
        have e3 : (TypifyV2.speedStep w1 (liftP p)).config = w1.config :=
          (TypifyV2.speedStep_cursor_fields w1 (liftP p)).1
        have e4 : w1.config =
            ({ w with config := TypifyV2.mergeCfg w.config (liftP p) } : TypifyV2.World).config :=
          (TypifyV2.textStep_cursor_fields _ _ _ h1).1
        rw [e1, e2, e3, e4]
        exact hA
  · injection hx with h3
    subst h3
    exact hA

theorem animExecV2 (w w2 : TypifyV2.World) (a : Action) (h : Anim w)
    (hx : TypifyV2.exec w (liftA a) = Except.ok w2) : Anim w2 := by
  rcases a with p | p | _ | i
  · rw [show liftA (Action.init p) = TypifyV2.Action.init (liftP p) from rfl, TypifyV2.exec] at hx
    injection hx with h2
    subst h2
    left
    rw [TypifyV2.init]
    rcases hr : w.resolve ((TypifyV2.mergeCfg TypifyV2.defaultOptions (liftP p)).selector) with _ | e
    · rfl
    · dsimp only
      show (TypifyV2.initCursor (TypifyV2.initAnim (TypifyV2.initBase w (liftP p) e) e) e).config.animation = "none"
      rw [TypifyV2.initCursor_config, TypifyV2.initAnim_config, TypifyV2.initBase_config]
      rfl
  · rw [show liftA (Action.update p) = TypifyV2.Action.update (liftP p) from rfl, TypifyV2.exec] at hx
    rcases h with hA | ⟨hin, htm⟩
    · exact Or.inl (updateAnimV2 w w2 p hx hA)
    · rw [TypifyV2.updateConfig, if_neg (by rw [hin]; exact fun hc => Bool.noConfusion hc)] at hx
      injection hx with h2
      subst h2
      exact Or.inr ⟨hin, htm⟩
  · rw [show liftA Action.destroy = TypifyV2.Action.destroy from rfl, TypifyV2.exec] at hx
    rcases h with hA | ⟨hin, htm⟩
    · exact Or.inl ((TypifyV2.destroy_cursor_fields w w2 hx).1 ▸ hA)
    · rw [TypifyV2.destroy, if_neg (by rw [hin]; exact fun hc => Bool.noConfusion hc)] at hx
      injection hx with h2
      subst h2
      exact Or.inr ⟨hin, htm⟩
  · rw [show liftA (Action.fire i) = TypifyV2.Action.fire i from rfl, TypifyV2.exec] at hx
    rcases h with hA | ⟨hin, htm⟩
    · exact Or.inl ((TypifyV2.fireTimer_cursor_fields w w2 i hx).1 ▸ hA)
    · rw [TypifyV2.fireTimer, htm] at hx
      rw [show findTimer ([] : List Timer) i = none from rfl] at hx
      dsimp only at hx
      injection hx with h2
      subst h2
      exact Or.inr ⟨hin, htm⟩

end TypifyV1

namespace TypifyV1

open Typify

theorem sim_exec (w : TypifyV2.World) (a : Action) (h : Anim w) :
    exec (projW w) a = (TypifyV2.exec w (liftA a)).map projW := by
  rcases a with p | p | _ | i
  · show Except.ok (init (projW w) p) = (Except.ok (TypifyV2.init w (liftP p))).map projW
    rw [sim_init w p]
    rfl
  · show updateConfig (projW w) p = (TypifyV2.updateConfig w (liftP p)).map projW
    rcases h with hA | ⟨hin, htm⟩
    · exact sim_updateConfig w p hA
    · rw [updateConfig, TypifyV2.updateConfig,
        if_neg (show ¬(projW w).isInitialized = true from by rw [show (projW w).isInitialized = w.isInitialized from rfl, hin]; exact fun hc => Bool.noConfusion hc),
        if_neg (show ¬w.isInitialized = true from by rw [hin]; exact fun hc => Bool.noConfusion hc)]
      rfl
  · show destroy (projW w) = (TypifyV2.destroy w).map projW
    exact sim_destroy w
  · show fireTimer (projW w) i = (TypifyV2.fireTimer w i).map projW
    rcases h with hA | ⟨hin, htm⟩
    · exact sim_fireTimer w i hA
    · rw [fireTimer, TypifyV2.fireTimer,
        show (projW w).timers = w.timers from rfl, htm]
      rfl

theorem sim_execs (acts : List Action) (w : TypifyV2.World) (h : Anim w) :
    execs (projW w) acts = (TypifyV2.execs w (acts.map liftA)).map projW := by
  induction acts generalizing w with
  | nil => rfl
  | cons a rest ih =>
    rw [List.map_cons, execs, TypifyV2.execs, sim_exec w a h]
    rcases hx : TypifyV2.exec w (liftA a) with er | w2
    · rfl
    · dsimp only [Except.map]
      exact ih w2 (animExecV2 w w2 a h hx)

end TypifyV1

namespace TypifyV1

open Typify

/-- **C10.** For every host environment (selector-resolution function) and
every sequence of external events over the option set shared by both
versions — `init`, `updateConfig` and `destroy` calls carrying only the
shared keys (selector, text, speed, loop, cursor, cursorStyle, delay),
interleaved with arbitrary timer firings — running v1 (`src/typify.js`)
from its pristine state produces, step for step, exactly the projection
of the v2 (`src/typify-v-2.0.0.js`) run from its pristine state: the same
outcome (same error, if any), and on success the same shared state —
children of every element (the revealed characters and the cursor
placement), the timer queue (every arm/cancel event), the cursor handle,
the revealed count, and all remaining shared singleton fields.  Since
this holds for every prefix of the event sequence, the two versions
produce the same sequence of revealed characters, the same timer
arm/cancel events and the same cursor placement throughout. -/
theorem c10_v1_v2_equivalence (r : String → Option Nat) (acts : List Action) :
    execs (mkClean r) acts =
      (TypifyV2.execs (TypifyV2.mkClean r) (acts.map liftA)).map projW := by
  have hb : projW (TypifyV2.mkClean r) = mkClean r := rfl
  rw [← hb]
  exact sim_execs acts (TypifyV2.mkClean r) (Or.inr ⟨rfl, rfl⟩)

end TypifyV1
